import Mathlib

/-!
# PyProvider script lifecycle: a shallow embedding of `ScriptProvider.cpp`

The development embeds `PythonScript` (the host-visible script object) and
`PythonScriptState` (one execution context) from
`DataModel/ScriptProviders/PyProvider/dll/ScriptProvider.cpp`.

Modelling conventions.

* `HRESULT` is a signed 32-bit value kept as an `Int`; `FAILED hr` is `hr < 0`.
* Interpreter objects (`PyObject *`) and host model objects are handles (`Nat`);
  a null pointer is `none`.
* Everything outside the file (the Python C API, the marshaler, the host data
  model, the reporting client, the resource table) is a *collaborator*.  The
  record `Env` gives the answer of every collaborator call as a function of the
  history of calls made so far (`Trace`) and of the call's arguments, and every
  call is appended to the trace.  A theorem quantified over `Env` therefore
  covers every outcome the collaborators can produce, and the trace makes the
  calls observable.
* `ComPtr` ownership is by value: the single slot `m_spActiveState` holds the
  context the script owns; a released context is simply dropped (the destructor
  of `PythonScriptState` is not part of the source file).
* The macro `IfFailedReturn(e)` comes from a header outside the file; it is read
  in the usual way: `hr = e`, and `return hr` when `FAILED(hr)`.
* Allocation failure of `std::vector`, `std::wstring` and `new` is not modelled;
  the interpreter lock (`GlobalInterpreterLock`, `ScriptSwitcher`) and debug
  `assert`s have no effect on the sequential results and are left out.
-/

namespace PyProvider

/-! ## Result codes -/

/-- The Windows result code, a signed 32-bit integer. -/
abbrev HRESULT := Int

/-- The success code `S_OK`. -/
def S_OK : HRESULT := 0
/-- The success code `S_FALSE`, used by `IStream::Read` to signal end of stream. -/
def S_FALSE : HRESULT := 1
/-- The failure code `E_FAIL` (0x80004005 as a signed 32-bit value). -/
def E_FAIL : HRESULT := -2147467259
/-- The failure code `E_UNEXPECTED` (0x8000FFFF as a signed 32-bit value). -/
def E_UNEXPECTED : HRESULT := -2147418113

/-- The `FAILED` test of the Windows headers: the sign bit is set. -/
def FAILED (hr : HRESULT) : Bool := decide (hr < 0)
/-- The `SUCCEEDED` test of the Windows headers: the sign bit is clear. -/
def SUCCEEDED (hr : HRESULT) : Bool := decide (0 ≤ hr)

/-! ## Handles and enumerations -/

/-- An interpreter object handle (`PyObject *`, non-null). -/
abbrev PyObj := Nat
/-- A host data-model object handle (`IModelObject`). -/
abbrev HostObj := Nat
/-- A reporting client handle (`IDataModelScriptClient *`, non-null). -/
abbrev Client := Nat
/-- A byte (`BYTE`), kept as a natural number. -/
abbrev Byte := Nat

/-- The `ErrorClass` enumeration of the script client interface. -/
inductive ErrorClass where
  | ErrorClassWarning
  | ErrorClassError
  deriving DecidableEq, Repr

/-- The `ScriptState` enumeration of `PythonScript`. -/
inductive ScriptState where
  | Unpopulated
  | Populated
  | Executed
  | Repopulated
  | Unlinked
  deriving DecidableEq, Repr

/-- The `ScriptStateState` enumeration of `PythonScriptState`. -/
inductive ScriptStateState where
  | Created
  | Executed
  | UserInitialized
  | Active
  | Inactive
  deriving DecidableEq, Repr

/-! ## Collaborator calls -/

/-- One call made into a collaborator, with its arguments. -/
inductive Call where
  | WideCharToMultiByte (src : List Byte) (cchWideChar : Nat) (cbMultiByte : Nat)
  | PyImport_AddModule (name : String)
  | PyModule_GetDict (module : PyObj)
  | DebugLog_Make
  | DebugLog_AddToObject (module : PyObj)
  | PyRun_String (src : List Byte) (dict : Option PyObj)
  | PyObject_HasAttrString (obj : Option PyObj) (name : String)
  | PyObject_GetAttrString (obj : Option PyObj) (name : String)
  | PyCallable_Check (obj : Option PyObj)
  | PyTuple_New (len : Nat)
  | PyObject_Call (callable : Option PyObj) (args : PyObj)
  | MarshalFromPython (module : PyObj)
  | AddParentModel (hostNamespace : HostObj) (model : HostObj)
  | RemoveParentModel (hostNamespace : HostObj) (model : HostObj)
  | PyErr_Occurred
  | PyErr_Fetch
  | PyObject_IsInstance_SyntaxError (value : Option PyObj)
  | PyLong_AsLong (obj : Option PyObj)
  | PyObject_Str (obj : Option PyObj)
  | PyUnicode_AsUTF8AndSize (obj : Option PyObj)
  | ConvertPythonError
  | GetStringResource (rscId : Nat)
  | GetUTF16 (msg : String)
  | ReportError (client : Client) (errClass : ErrorClass) (hrError : HRESULT)
      (msg : String) (line : Nat) (pos : Nat)
  deriving DecidableEq, Repr

/-- The history of collaborator calls, oldest first. -/
abbrev Trace := List Call

/-- The collaborators.  Each field answers one kind of call; the first argument
is the history of calls made before it. -/
structure Env where
  /-- The answer of `WideCharToMultiByte(CP_UTF8, ...)`: the returned size and the bytes written. -/
  WideCharToMultiByte : Trace → List Byte → Nat → Nat → Int × List Byte
  /-- The answer of `PyImport_AddModule(name)`: the module, or null. -/
  PyImport_AddModule : Trace → String → Option PyObj
  /-- The answer of `PyModule_GetDict(module)`. -/
  PyModule_GetDict : Trace → PyObj → Option PyObj
  /-- The result of `MakeAndInitialize<PythonHostLibrary_DebugLog>`. -/
  DebugLog_Make : Trace → HRESULT
  /-- The result of `PythonHostLibrary_DebugLog::AddToObject(module)`. -/
  DebugLog_AddToObject : Trace → PyObj → HRESULT
  /-- The answer of `PyRun_String(src, Py_file_input, dict, dict)`: a value, or null on an exception. -/
  PyRun_String : Trace → List Byte → Option PyObj → Option PyObj
  /-- The answer of `PyObject_HasAttrString(obj, name)` (a C `int`). -/
  PyObject_HasAttrString : Trace → Option PyObj → String → Int
  /-- The answer of `PyObject_GetAttrString(obj, name)`: the attribute, or null. -/
  PyObject_GetAttrString : Trace → Option PyObj → String → Option PyObj
  /-- The answer of `PyCallable_Check(obj)` (a C `int`). -/
  PyCallable_Check : Trace → Option PyObj → Int
  /-- The answer of `PyTuple_New(len)`: the tuple, or null. -/
  PyTuple_New : Trace → Nat → Option PyObj
  /-- The answer of `PyObject_Call(callable, args, nullptr)`: the result, or null on an exception. -/
  PyObject_Call : Trace → Option PyObj → PyObj → Option PyObj
  /-- The answer of `PythonMarshaler::MarshalFromPython(module, ...)`: result code and marshaled object. -/
  MarshalFromPython : Trace → PyObj → HRESULT × HostObj
  /-- The result of `IModelObject::AddParentModel` on the host namespace. -/
  AddParentModel : Trace → HostObj → HostObj → HRESULT
  /-- The result of `IModelObject::RemoveParentModel` on the host namespace. -/
  RemoveParentModel : Trace → HostObj → HostObj → HRESULT
  /-- The answer of `PyErr_Occurred()`, as the `bool` it is converted to. -/
  PyErr_Occurred : Trace → Bool
  /-- The `pValue` left by `PyErr_Fetch` followed by `PyErr_NormalizeException`. -/
  PyErr_Fetch : Trace → Option PyObj
  /-- The answer of `PyObject_IsInstance(value, PyExc_SyntaxError)` (a C `int`). -/
  PyObject_IsInstance_SyntaxError : Trace → Option PyObj → Int
  /-- The answer of `PyLong_AsLong(obj)` (a C `long`). -/
  PyLong_AsLong : Trace → Option PyObj → Int
  /-- The answer of `PyObject_Str(obj)`: the string object, or null. -/
  PyObject_Str : Trace → Option PyObj → Option PyObj
  /-- The answer of `PyUnicode_AsUTF8AndSize(obj, nullptr)`: the text, or null. -/
  PyUnicode_AsUTF8AndSize : Trace → Option PyObj → Option String
  /-- The result code produced by the macro `IfObjectErrorConvertAndReturn` for a null object. -/
  ConvertPythonError : Trace → HRESULT
  /-- The answer of `PythonProvider::GetStringResource(rscId)`: result code and template text. -/
  GetStringResource : Trace → Nat → HRESULT × String
  /-- The answer of `GetUTF16(msg)`: result code and converted text. -/
  GetUTF16 : Trace → String → HRESULT × String
  /-- The text `_vsnwprintf_s` produces for a format text and its variadic arguments. -/
  vsnwprintf : String → List String → String
  /-- The result of `IDataModelScriptClient::ReportError`. -/
  ReportError : Trace → Client → ErrorClass → HRESULT → String → Nat → Nat → HRESULT
  /-- The resource identifier `IDS_FAIL_EXECUTE`. -/
  IDS_FAIL_EXECUTE : Nat
  /-- The resource identifier `IDS_FAIL_METHOD`. -/
  IDS_FAIL_METHOD : Nat

/-! ## Data model -/

/-- The fields of `PythonScriptState`, one execution context. -/
structure PythonScriptState where
  /-- The context state `m_state`. -/
  m_state : ScriptStateState
  /-- The UTF-8 transcoded source text `m_scriptContent`. -/
  m_scriptContent : List Byte
  /-- The interpreter module `m_pModule` the context runs in. -/
  m_pModule : PyObj
  /-- The cached invoker `m_pythonMainFunction` (null when none was discovered). -/
  m_pythonMainFunction : Option PyObj
  /-- The marshaled namespace `m_namespaceObject` linked into the host (empty when not linked). -/
  m_namespaceObject : Option HostObj
  deriving DecidableEq, Repr

/-- The fields of `PythonScript`. -/
structure PythonScript where
  /-- The script state `m_state`. -/
  m_state : ScriptState
  /-- The cached source buffer `m_scriptContent`. -/
  m_scriptContent : List Byte
  /-- The script name `m_scriptName`. -/
  m_scriptName : String
  /-- The script path `m_scriptFullPathName`. -/
  m_scriptFullPathName : String
  /-- The active execution context `m_spActiveState` (null when there is none). -/
  m_spActiveState : Option PythonScriptState
  /-- The reporting client `m_spReportingClient` (null outside an Execute call). -/
  m_spReportingClient : Option Client
  /-- The host namespace object `m_hostNamespace`. -/
  m_hostNamespace : HostObj
  deriving DecidableEq, Repr

/-! ## `PythonScript::Populate` -/

/-- The loop of `PythonScript::Populate` (lines 450-461).  `reads` lists the
answers of the successive `IStream::Read` calls: the result code and the bytes
delivered.  The result is the code `hr` after the loop and the buffer, and
`none` when the listed answers run out before the loop ends. -/
def populateLoop : List (HRESULT × List Byte) → List Byte → Option (HRESULT × List Byte)
  | [], _ => none
  | (hr, chunk) :: rest, content =>
      -- fEOF = (hr == S_FALSE); IfFailedReturn(hr);
      if FAILED hr then some (hr, content)
      else
        -- m_scriptContent.insert(m_scriptContent.end(), &buf[0], &buf[bytesRead]);
        -- IfFailedReturn(ConvertException(...)) leaves hr = S_OK
        let content := content ++ chunk
        if hr = S_FALSE then some (S_OK, content)
        else populateLoop rest content

/-- The method `PythonScript::Populate` (lines 441-488). -/
def PythonScript.Populate (s : PythonScript) (reads : List (HRESULT × List Byte)) :
    Option (HRESULT × PythonScript) :=
  -- m_scriptContent.clear();
  match populateLoop reads [] with
  | none => none
  | some (hr, content) =>
      if FAILED hr then
        some (hr, { s with m_scriptContent := content })
      else
        -- push_back(0); push_back(0);
        let content := content ++ [0, 0]
        let hr := if hr = S_FALSE then S_OK else hr
        some (hr, { s with
          m_scriptContent := content
          m_state := if s.m_state = ScriptState.Executed then ScriptState.Repopulated
                     else ScriptState.Populated })

/-! ## Error reporting -/

/-- The conversion `static_cast<ULONG>` of a C `long`: reduction modulo 2^32. -/
def toULONG (v : Int) : Nat := (v % 4294967296).toNat

/-- The return value of `_vsnwprintf_s(pMsg, len, _TRUNCATE, fmt, va)` when the
formatted text is `text`: -1 when the text and its terminator do not fit in
`len` characters, the number of characters written otherwise. -/
def vsnwprintf_s (len : Nat) (text : String) : Int :=
  if text.length < len then (text.length : Int) else -1

/-- The buffer-growing loop of `InternalReportError` (lines 227-245): the buffer
length when the loop ends.  `fuel` bounds the number of doublings. -/
def growMessageBuffer : Nat → Nat → String → Nat
  | 0, len, _ => len
  | fuel + 1, len, text =>
      if vsnwprintf_s len text = -1 then growMessageBuffer fuel (len * 2) text else len

/-- The text held by `pMsg` after the loop of `InternalReportError`: the
formatted text, cut to the final buffer length less the terminator. -/
def formattedMessage (text : String) : String :=
  String.mk (text.data.take (growMessageBuffer text.length 1024 text - 1))

/-- Modelled from the spec: the macro `IfObjectErrorConvertAndReturn` is declared
in a header that is not part of the source file.  For a null object it converts
the pending interpreter error and returns the converted code; the spec (4.3)
says such a call fails, so the code is the collaborator's code when that is a
failure and `E_FAIL` otherwise. -/
def ObjectErrorConvert (env : Env) (w : Trace) : HRESULT :=
  if FAILED (env.ConvertPythonError w) then env.ConvertPythonError w else E_FAIL

/-- The method `PythonScript::InternalReportError` taking the message text
(lines 210-253).  The result is the return code and the trace. -/
def PythonScript.InternalReportError (env : Env) (s : PythonScript) (errClass : ErrorClass)
    (hrError : HRESULT) (line pos : Nat) (pszMsg : String) (va : List String) (w : Trace) :
    HRESULT × Trace :=
  -- IfFailedReturn(GetUTF16(pszMsg, &msgUtf16));
  let r := env.GetUTF16 w pszMsg
  let w1 := w ++ [Call.GetUTF16 pszMsg]
  if FAILED r.1 then (r.1, w1)
  else
    let pMsg := formattedMessage (env.vsnwprintf r.2 va)
    match s.m_spReportingClient with
    | some client =>
        (env.ReportError w1 client errClass hrError pMsg line pos,
         w1 ++ [Call.ReportError client errClass hrError pMsg line pos])
    | none => (r.1, w1)

/-- The method `PythonScript::InternalReportError` taking a resource identifier
(lines 255-274). -/
def PythonScript.InternalReportErrorRsc (env : Env) (s : PythonScript) (errClass : ErrorClass)
    (hrError : HRESULT) (line pos : Nat) (rscId : Nat) (va : List String) (w : Trace) :
    HRESULT × Trace :=
  let r := env.GetStringResource w rscId
  let w1 := w ++ [Call.GetStringResource rscId]
  if FAILED r.1 then (r.1, w1)
  else PythonScript.InternalReportError env s errClass hrError line pos r.2 va w1

/-- The repeated block of `ReportExceptionOrError` that reads an integer
attribute of the exception value (lines 325-331 for `lineno`, 333-339 for
`offset`).  The first component is the code returned early by
`IfObjectErrorConvertAndReturn`, if any; the second the new value. -/
def fetchULongAttr (env : Env) (value : Option PyObj) (name : String) (cur : Nat) (w : Trace) :
    Option HRESULT × Nat × Trace :=
  let has := env.PyObject_HasAttrString w value name
  let w1 := w ++ [Call.PyObject_HasAttrString value name]
  if has ≠ 0 then
    let p := env.PyObject_GetAttrString w1 value name
    let w2 := w1 ++ [Call.PyObject_GetAttrString value name]
    match p with
    | none => (some (ObjectErrorConvert env w2), cur, w2 ++ [Call.ConvertPythonError])
    | some o =>
        (none, toULONG (env.PyLong_AsLong w2 (some o)), w2 ++ [Call.PyLong_AsLong (some o)])
  else (none, cur, w1)

/-- The block of `ReportExceptionOrError` that reads the `msg` attribute of a
syntax error (lines 341-347). -/
def fetchMsgAttr (env : Env) (value : Option PyObj) (w : Trace) :
    Option HRESULT × Option String × Trace :=
  let has := env.PyObject_HasAttrString w value "msg"
  let w1 := w ++ [Call.PyObject_HasAttrString value "msg"]
  if has ≠ 0 then
    let p := env.PyObject_GetAttrString w1 value "msg"
    let w2 := w1 ++ [Call.PyObject_GetAttrString value "msg"]
    match p with
    | none => (some (ObjectErrorConvert env w2), none, w2 ++ [Call.ConvertPythonError])
    | some o =>
        (none, env.PyUnicode_AsUTF8AndSize w2 (some o),
         w2 ++ [Call.PyUnicode_AsUTF8AndSize (some o)])
  else (none, none, w1)

/-- The inspection of a pending exception in `ReportExceptionOrError` (lines
299-355).  The result is the early return code (if any), the line, the
position, the message text (null when none was found) and the trace. -/
def inspectException (env : Env) (w : Trace) :
    Option HRESULT × Nat × Nat × Option String × Trace :=
  -- PyErr_Fetch; PyErr_NormalizeException
  let value := env.PyErr_Fetch w
  let w1 := w ++ [Call.PyErr_Fetch]
  let isSyntax := env.PyObject_IsInstance_SyntaxError w1 value
  let w2 := w1 ++ [Call.PyObject_IsInstance_SyntaxError value]
  if isSyntax ≠ 0 then
    let l := fetchULongAttr env value "lineno" 0 w2
    match l.1 with
    | some hr => (some hr, l.2.1, 0, none, l.2.2)
    | none =>
        let o := fetchULongAttr env value "offset" 0 l.2.2
        match o.1 with
        | some hr => (some hr, l.2.1, o.2.1, none, o.2.2)
        | none =>
            let m := fetchMsgAttr env value o.2.2
            (m.1, l.2.1, o.2.1, m.2.1, m.2.2)
  else
    match value with
    | some v =>
        let pStrObj := env.PyObject_Str w2 (some v)
        let w3 := w2 ++ [Call.PyObject_Str (some v)]
        (none, 0, 0, env.PyUnicode_AsUTF8AndSize w3 pStrObj,
         w3 ++ [Call.PyUnicode_AsUTF8AndSize pStrObj])
    | none => (none, 0, 0, none, w2)

/-- The method `PythonScript::ReportExceptionOrError` (lines 276-376).  The
result is the return code, the value stored in `*pConvertedResult` and the
trace. -/
def PythonScript.ReportExceptionOrError (env : Env) (s : PythonScript) (hrIn : HRESULT)
    (errClass : ErrorClass) (rscId : Nat) (va : List String) (w : Trace) :
    HRESULT × HRESULT × Trace :=
  -- *pConvertedResult = hrIn;
  let converted := hrIn
  let hasException := env.PyErr_Occurred w
  let w1 := w ++ [Call.PyErr_Occurred]
  if hasException then
    let x := inspectException env w1
    match x.1 with
    | some hr => (hr, converted, x.2.2.2.2)
    | none =>
        match x.2.2.2.1 with
        | some pszMsg =>
            let r := PythonScript.InternalReportError env s errClass converted x.2.1 x.2.2.1
              pszMsg va x.2.2.2.2
            (r.1, converted, r.2)
        | none =>
            let r := PythonScript.InternalReportErrorRsc env s errClass converted 0 0 rscId va
              x.2.2.2.2
            (r.1, converted, r.2)
  else
    let r := PythonScript.InternalReportErrorRsc env s errClass converted 0 0 rscId va w1
    (r.1, converted, r.2)

/-! ## `PythonScriptState`: one execution context -/

/-- The effect of `m_scriptContent.resize(sz + 1)`, the second
`WideCharToMultiByte` call writing into the first `sz` bytes, and
`m_scriptContent[sz] = 0` (lines 758-773). -/
def transcodedContent (sz : Nat) (written : List Byte) : List Byte :=
  written.take sz ++ List.replicate (sz - written.length) 0 ++ [0]

/-- The method `PythonScriptState::RuntimeClassInitialize` (lines 730-788) as
run by `MakeAndInitialize<PythonScriptState>` on a fresh object.  The result is
the failing code (`MakeAndInitialize` then releases the object and leaves the
output pointer null) or the constructed context (the code is then `S_OK`),
together with the trace. -/
def PythonScriptState.RuntimeClassInitialize (env : Env) (scriptContent : List Byte)
    (w : Trace) : Except HRESULT PythonScriptState × Trace :=
  -- m_state = ScriptStateState::Created;
  let cch := scriptContent.length / 2
  let sz := (env.WideCharToMultiByte w scriptContent cch 0).1
  let w1 := w ++ [Call.WideCharToMultiByte scriptContent cch 0]
  let r := env.WideCharToMultiByte w1 scriptContent cch sz.toNat
  let w2 := w1 ++ [Call.WideCharToMultiByte scriptContent cch sz.toNat]
  if sz ≠ r.1 then (Except.error E_FAIL, w2)
  else
    let pModule := env.PyImport_AddModule w2 "__foo__"
    let w3 := w2 ++ [Call.PyImport_AddModule "__foo__"]
    match pModule with
    | none => (Except.error E_FAIL, w3)
    | some m =>
        (Except.ok { m_state := ScriptStateState.Created
                     m_scriptContent := transcodedContent sz.toNat r.2
                     m_pModule := m
                     m_pythonMainFunction := none
                     m_namespaceObject := none },
         w3)

/-- The method `PythonScriptState::Execute` (lines 804-836).  `script` is the
owning script reached through `m_spScript`. -/
def PythonScriptState.Execute (env : Env) (script : PythonScript) (c : PythonScriptState)
    (w : Trace) : HRESULT × PythonScriptState × Trace :=
  let pDict := env.PyModule_GetDict w c.m_pModule
  let w1 := w ++ [Call.PyModule_GetDict c.m_pModule]
  let hrMake := env.DebugLog_Make w1
  let w2 := w1 ++ [Call.DebugLog_Make]
  if FAILED hrMake then (hrMake, c, w2)
  else
    let hrAdd := env.DebugLog_AddToObject w2 c.m_pModule
    let w3 := w2 ++ [Call.DebugLog_AddToObject c.m_pModule]
    if FAILED hrAdd then (hrAdd, c, w3)
    else
      let pValue := env.PyRun_String w3 c.m_scriptContent pDict
      let w4 := w3 ++ [Call.PyRun_String c.m_scriptContent pDict]
      match pValue with
      | none =>
          let r := PythonScript.ReportExceptionOrError env script E_FAIL
            ErrorClass.ErrorClassError env.IDS_FAIL_EXECUTE [] w4
          (r.2.1, c, r.2.2)
      | some _ => (hrAdd, { c with m_state := ScriptStateState.Executed }, w4)

/-- The first block of `PythonScriptState::InitializeScript` (lines 630-669):
the optional `initializeScript` call.  The first component is the code returned
early, if any. -/
def PythonScriptState.callInitializer (env : Env) (script : PythonScript)
    (c : PythonScriptState) (w : Trace) : Option HRESULT × PythonScriptState × Trace :=
  let has := env.PyObject_HasAttrString w (some c.m_pModule) "initializeScript"
  let w1 := w ++ [Call.PyObject_HasAttrString (some c.m_pModule) "initializeScript"]
  if has ≠ 0 then
    let pInitializeScript := env.PyObject_GetAttrString w1 (some c.m_pModule) "initializeScript"
    let w2 := w1 ++ [Call.PyObject_GetAttrString (some c.m_pModule) "initializeScript"]
    let callable := env.PyCallable_Check w2 pInitializeScript
    let w3 := w2 ++ [Call.PyCallable_Check pInitializeScript]
    if callable = 0 then (some E_FAIL, c, w3)
    else
      let pArgs := env.PyTuple_New w3 0
      let w4 := w3 ++ [Call.PyTuple_New 0]
      match pArgs with
      | none => (some E_FAIL, c, w4)
      | some args =>
          let pResult := env.PyObject_Call w4 pInitializeScript args
          let w5 := w4 ++ [Call.PyObject_Call pInitializeScript args]
          match pResult with
          | none =>
              let r := PythonScript.ReportExceptionOrError env script E_FAIL
                ErrorClass.ErrorClassError env.IDS_FAIL_METHOD ["initializeScript"] w5
              (some r.2.1, c, r.2.2)
          | some _ => (none, { c with m_state := ScriptStateState.UserInitialized }, w5)
  else (none, c, w1)

/-- The second block of `PythonScriptState::InitializeScript` (lines 675-687):
the discovery of the optional `invokeScript` callable. -/
def PythonScriptState.discoverInvoker (env : Env) (c : PythonScriptState) (w : Trace) :
    Option HRESULT × PythonScriptState × Trace :=
  let has := env.PyObject_HasAttrString w (some c.m_pModule) "invokeScript"
  let w1 := w ++ [Call.PyObject_HasAttrString (some c.m_pModule) "invokeScript"]
  if has ≠ 0 then
    let pInvokeScript := env.PyObject_GetAttrString w1 (some c.m_pModule) "invokeScript"
    let w2 := w1 ++ [Call.PyObject_GetAttrString (some c.m_pModule) "invokeScript"]
    match pInvokeScript with
    | none => (some (ObjectErrorConvert env w2), c, w2 ++ [Call.ConvertPythonError])
    | some f =>
        let callable := env.PyCallable_Check w2 (some f)
        let w3 := w2 ++ [Call.PyCallable_Check (some f)]
        if callable = 0 then (some E_FAIL, c, w3)
        else (none, { c with m_pythonMainFunction := some f }, w3)
  else (none, c, w1)

/-- The last block of `PythonScriptState::InitializeScript` (lines 694-719):
marshal the module and attach it to the host namespace (the link step). -/
def PythonScriptState.linkNamespace (env : Env) (script : PythonScript)
    (c : PythonScriptState) (w : Trace) : HRESULT × PythonScriptState × Trace :=
  let r := env.MarshalFromPython w c.m_pModule
  let w1 := w ++ [Call.MarshalFromPython c.m_pModule]
  if FAILED r.1 then (r.1, c, w1)
  else
    let hr := env.AddParentModel w1 script.m_hostNamespace r.2
    let w2 := w1 ++ [Call.AddParentModel script.m_hostNamespace r.2]
    if FAILED hr then (hr, c, w2)
    else
      (hr, { c with m_namespaceObject := some r.2, m_state := ScriptStateState.Active }, w2)

/-- The method `PythonScriptState::InitializeScript` (lines 615-720). -/
def PythonScriptState.InitializeScript (env : Env) (script : PythonScript)
    (c : PythonScriptState) (w : Trace) : HRESULT × PythonScriptState × Trace :=
  let a := PythonScriptState.callInitializer env script c w
  match a.1 with
  | some hr => (hr, a.2.1, a.2.2)
  | none =>
      let b := PythonScriptState.discoverInvoker env a.2.1 a.2.2
      match b.1 with
      | some hr => (hr, b.2.1, b.2.2)
      | none => PythonScriptState.linkNamespace env script b.2.1 b.2.2

/-- The method `PythonScriptState::FinalizeInitialization` (lines 722-728). -/
def PythonScriptState.FinalizeInitialization (c : PythonScriptState) (w : Trace) :
    HRESULT × PythonScriptState × Trace :=
  (S_OK, c, w)

/-- Modelled from the spec: `PythonScriptState::UninitializeScript` is declared
in a header that is not part of the source file.  Spec 4.3: it "detaches the
marshaled namespace from the host namespace and releases cached callables; must
be idempotent-safe to call before destruction"; host failures are "propagated
verbatim" (spec 7).  The context is left in the state `Inactive`, the
uninitialized marker of spec 4.3 that the assertion of `InitializeScript`
(line 657) admits on re-initialization. -/
def PythonScriptState.UninitializeScript (env : Env) (script : PythonScript)
    (c : PythonScriptState) (w : Trace) : HRESULT × PythonScriptState × Trace :=
  match c.m_namespaceObject with
  | some ns =>
      let hr := env.RemoveParentModel w script.m_hostNamespace ns
      let w1 := w ++ [Call.RemoveParentModel script.m_hostNamespace ns]
      if FAILED hr then (hr, c, w1)
      else
        (hr, { c with m_namespaceObject := none, m_pythonMainFunction := none,
                      m_state := ScriptStateState.Inactive }, w1)
  | none =>
      (S_OK, { c with m_pythonMainFunction := none, m_state := ScriptStateState.Inactive }, w)

/-- Modelled from the spec: `PythonScriptState::HasMainFunction` is declared in
a header that is not part of the source file.  Spec 4.3: "true iff an invoker
was discovered during initialization", that is, iff `InitializeScript` cached
one in `m_pythonMainFunction` (line 686). -/
def PythonScriptState.HasMainFunction (c : PythonScriptState) : Bool :=
  c.m_pythonMainFunction.isSome

/-! ## `PythonScript`: execution and rollback -/

/-- The method `PythonScript::InternalExecute` (lines 490-519). -/
def PythonScript.InternalExecute (env : Env) (s : PythonScript) (w : Trace) :
    HRESULT × PythonScript × Trace :=
  -- IfFailedReturn(MakeAndInitialize<PythonScriptState>(&m_spActiveState, this, ...));
  let m := PythonScriptState.RuntimeClassInitialize env s.m_scriptContent w
  match m.1 with
  | Except.error hr => (hr, { s with m_spActiveState := none }, m.2)
  | Except.ok c0 =>
      let s0 := { s with m_spActiveState := some c0 }
      let e := PythonScriptState.Execute env s0 c0 m.2
      if FAILED e.1 then (e.1, { s with m_spActiveState := none }, e.2.2)
      else
        let s1 := { s with m_spActiveState := some e.2.1 }
        let i := PythonScriptState.InitializeScript env s1 e.2.1 e.2.2
        if FAILED i.1 then (i.1, { s with m_spActiveState := none }, i.2.2)
        else
          let f := PythonScriptState.FinalizeInitialization i.2.1 i.2.2
          if FAILED f.1 then (f.1, { s with m_spActiveState := none }, f.2.2)
          else (f.1, { s with m_spActiveState := some f.2.1 }, f.2.2)

/-- The start of the guarded block of `PythonScript::Execute` (lines 537-548): the
active context is moved into `spCurrentState` and, when there is one, asked to
uninitialize.  The result is the code `hr`, `spCurrentState` and the trace. -/
def PythonScript.detachAndUninitialize (env : Env) (s : PythonScript) (w : Trace) :
    HRESULT × Option PythonScriptState × Trace :=
  -- ComPtr<PythonScriptState> spCurrentState = std::move(m_spActiveState);
  match s.m_spActiveState with
  | some c =>
      let r := PythonScriptState.UninitializeScript env { s with m_spActiveState := none } c w
      (r.1, some r.2.1, r.2.2)
  | none => (S_OK, none, w)

/-- The script after lines 537-558 of `PythonScript::Execute`: the active context
moved out, the reporting client installed, and `Unlinked` turned into
`Populated`. -/
def PythonScript.beginExecute (s : PythonScript) (pScriptClient : Option Client) :
    PythonScript :=
  { s with
    m_spActiveState := none
    m_spReportingClient := pScriptClient
    m_state := if s.m_state = ScriptState.Unlinked then ScriptState.Populated else s.m_state }

/-- The rollback of `PythonScript::Execute` (lines 565-578), entered with the
failing code `hr` of `InternalExecute`: `spCurrentState` is moved back into
`m_spActiveState` and, when it is not null, re-initialized. -/
def PythonScript.rollback (env : Env) (s : PythonScript)
    (spCurrentState : Option PythonScriptState) (hr : HRESULT) (w : Trace) :
    HRESULT × PythonScript × Trace :=
  -- m_spActiveState = std::move(spCurrentState);
  let s2 := { s with m_spActiveState := spCurrentState }
  match spCurrentState with
  | some c =>
      let i := PythonScriptState.InitializeScript env s2 c w
      (if FAILED i.1 then i.1 else hr, { s2 with m_spActiveState := some i.2.1 }, i.2.2)
  | none => (hr, s2, w)

/-- The guarded block of `PythonScript::Execute` (lines 533-583), entered when
the state is `Populated`, `Repopulated` or `Unlinked`. -/
def PythonScript.executeGuarded (env : Env) (s : PythonScript)
    (pScriptClient : Option Client) (w : Trace) : HRESULT × PythonScript × Trace :=
  let u := PythonScript.detachAndUninitialize env s w
  let s1 := PythonScript.beginExecute s pScriptClient
  let y : HRESULT × PythonScript × Trace :=
    if SUCCEEDED u.1 then
      let r := PythonScript.InternalExecute env s1 u.2.2
      if FAILED r.1 then PythonScript.rollback env r.2.1 u.2.1 r.1 r.2.2 else r
    else (u.1, s1, u.2.2)
  -- m_spReportingClient = nullptr;
  (y.1, { y.2.1 with m_spReportingClient := none }, y.2.2)

/-- The method `PythonScript::Execute` (lines 521-599). -/
def PythonScript.Execute (env : Env) (s : PythonScript) (pScriptClient : Option Client)
    (w : Trace) : HRESULT × PythonScript × Trace :=
  let x : HRESULT × PythonScript × Trace :=
    if s.m_state = ScriptState.Populated ∨ s.m_state = ScriptState.Repopulated ∨
        s.m_state = ScriptState.Unlinked then
      PythonScript.executeGuarded env s pScriptClient w
    else
      (E_UNEXPECTED, s, w)
  -- if (SUCCEEDED(hr)) m_state = ScriptState::Executed;
  (x.1, if SUCCEEDED x.1 then { x.2.1 with m_state := ScriptState.Executed } else x.2.1, x.2.2)

/-- The method `PythonScript::IsInvocable` (lines 601-613).  The result is
`none` when the call dereferences a null `m_spActiveState`; otherwise the
return code and the value written to `*pIsInvocable`, if any. -/
def PythonScript.IsInvocable (s : PythonScript) : Option (HRESULT × Option Bool) :=
  if s.m_state = ScriptState.Executed ∨ s.m_state = ScriptState.Repopulated then
    match s.m_spActiveState with
    | some c => some (S_OK, some c.HasMainFunction)
    | none => none
  else
    some (E_FAIL, none)

/-! ## A concrete environment

`quietEnv` is an interpreter and host in which every call succeeds: the module
`__foo__` is object 1, it defines neither `initializeScript` nor
`invokeScript`, script bodies run without raising, and the host accepts every
model.  The other environments change single answers of it. -/

/-- An environment in which every collaborator call succeeds. -/
def quietEnv : Env where
  WideCharToMultiByte := fun _ src cch _ =>
    ((cch : Int), (List.range cch).map (fun i => src.getD (2 * i) 0))
  PyImport_AddModule := fun _ _ => some 1
  PyModule_GetDict := fun _ m => some (m + 100)
  DebugLog_Make := fun _ => S_OK
  DebugLog_AddToObject := fun _ _ => S_OK
  PyRun_String := fun _ _ _ => some 7
  PyObject_HasAttrString := fun _ _ _ => 0
  PyObject_GetAttrString := fun _ _ _ => none
  PyCallable_Check := fun _ _ => 0
  PyTuple_New := fun _ _ => some 8
  PyObject_Call := fun _ _ _ => some 7
  MarshalFromPython := fun _ _ => (S_OK, 50)
  AddParentModel := fun _ _ _ => S_OK
  RemoveParentModel := fun _ _ _ => S_OK
  PyErr_Occurred := fun _ => false
  PyErr_Fetch := fun _ => none
  PyObject_IsInstance_SyntaxError := fun _ _ => 0
  PyLong_AsLong := fun _ _ => 0
  PyObject_Str := fun _ _ => none
  PyUnicode_AsUTF8AndSize := fun _ _ => none
  ConvertPythonError := fun _ => E_FAIL
  GetStringResource := fun _ _ => (S_OK, "failure")
  GetUTF16 := fun _ msg => (S_OK, msg)
  vsnwprintf := fun fmt _ => fmt
  ReportError := fun _ _ _ _ _ _ _ => S_OK
  IDS_FAIL_EXECUTE := 1
  IDS_FAIL_METHOD := 2

/-- The environment `quietEnv` in which every script body raises: `PyRun_String`
returns null and leaves an exception pending. -/
def raisingEnv : Env :=
  { quietEnv with
    PyRun_String := fun _ _ _ => none
    PyErr_Occurred := fun _ => true
    PyErr_Fetch := fun _ => some 60
    PyObject_Str := fun _ _ => some 61
    PyUnicode_AsUTF8AndSize := fun _ _ => some "division by zero" }

/-- A script as `CreateScript` leaves it: unpopulated, no context. -/
def freshScript : PythonScript where
  m_state := ScriptState.Unpopulated
  m_scriptContent := []
  m_scriptName := ""
  m_scriptFullPathName := ""
  m_spActiveState := none
  m_spReportingClient := none
  m_hostNamespace := 40

/-- The UTF-16 source text "x" with its two terminating zero bytes. -/
def sourceX : List Byte := [120, 0, 0, 0]

/-- A context that was executed and linked: module 1, host model 50, no invoker. -/
def activeContext : PythonScriptState where
  m_state := ScriptStateState.Active
  m_scriptContent := [120, 0, 0]
  m_pModule := 1
  m_pythonMainFunction := none
  m_namespaceObject := some 50

/-- A context whose namespace was detached from the host (the script is
`Unlinked`): module 1, no host model linked, no invoker cached. -/
def unlinkedContext : PythonScriptState where
  m_state := ScriptStateState.Inactive
  m_scriptContent := [120, 0, 0]
  m_pModule := 1
  m_pythonMainFunction := none
  m_namespaceObject := none

/-- A script in state `Unlinked` that still holds its detached context. -/
def unlinkedScript : PythonScript :=
  { freshScript with
    m_state := ScriptState.Unlinked
    m_scriptContent := sourceX
    m_spActiveState := some unlinkedContext }

/-- A script that was executed and then populated again: state `Repopulated`,
holding the active context of the previous run. -/
def repopulatedScript : PythonScript :=
  { freshScript with
    m_state := ScriptState.Repopulated
    m_scriptContent := sourceX
    m_spActiveState := some activeContext }

/-- A script that was populated and never executed. -/
def populatedScript : PythonScript :=
  { freshScript with
    m_state := ScriptState.Populated
    m_scriptContent := sourceX }

/-! ## Observing the trace -/

/-- The call runs a script body: it is a `PyRun_String` call. -/
def Call.isPyRun_String : Call → Bool
  | Call.PyRun_String _ _ => true
  | _ => false

/-- The call belongs to the link step: it marshals a namespace or attaches a
model to the host namespace. -/
def Call.isLinkStep : Call → Bool
  | Call.MarshalFromPython _ => true
  | Call.AddParentModel _ _ => true
  | _ => false

/-- The module names requested from the interpreter by the calls of a trace. -/
def requestedModuleNames : Trace → List String
  | [] => []
  | Call.PyImport_AddModule name :: rest => name :: requestedModuleNames rest
  | _ :: rest => requestedModuleNames rest

/-- The UTF-16 source text "y" with its two terminating zero bytes. -/
def sourceY : List Byte := [121, 0, 0, 0]

/-- The environment of a reload whose new body defines `invokeScript` and then
raises (such as `def invokeScript(): ...` followed by `1/0`): `PyRun_String`
returns null with an exception pending, and once a body has run in the module
`__foo__` (object 1, shared by every context) that module has the callable
attribute `invokeScript` (object 30). -/
def redefiningEnv : Env :=
  { raisingEnv with
    PyObject_HasAttrString := fun w _ name =>
      if name = "invokeScript" ∧ w.any Call.isPyRun_String = true then 1 else 0
    PyObject_GetAttrString := fun _ _ name => if name = "invokeScript" then some 30 else none
    PyCallable_Check := fun _ o => if o = some 30 then 1 else 0 }

/-- The environment of a reload whose new body raises while the module defines
a callable `initializeScript` (object 20) and no `invokeScript`. -/
def initializerEnv : Env :=
  { raisingEnv with
    PyObject_HasAttrString := fun _ _ name => if name = "initializeScript" then 1 else 0
    PyObject_GetAttrString := fun _ _ name =>
      if name = "initializeScript" then some 20 else none
    PyCallable_Check := fun _ o => if o = some 20 then 1 else 0 }

/-- The environment of a script whose namespace holds a non-callable
`initializeScript` value (object 21, such as `initializeScript = 5`). -/
def nonCallableEnv : Env :=
  { quietEnv with
    PyObject_HasAttrString := fun _ _ name => if name = "initializeScript" then 1 else 0
    PyObject_GetAttrString := fun _ _ name =>
      if name = "initializeScript" then some 21 else none
    PyCallable_Check := fun _ _ => 0 }

/-- A context that was executed and linked and holds the invoker object 30. -/
def invocableContext : PythonScriptState :=
  { activeContext with m_pythonMainFunction := some 30 }

/-- The trace `w2` extends the trace `w1` by calls that all satisfy `P`. -/
def TraceExtends (P : Call → Prop) (w1 w2 : Trace) : Prop :=
  ∃ evs, w2 = w1 ++ evs ∧ ∀ e ∈ evs, P e

/-- The call does not run a script body. -/
def NotRun (e : Call) : Prop := e.isPyRun_String = false

/-- The call attaches a model to the host namespace: it is an `AddParentModel`
call. -/
def Call.isAddParentModel : Call → Bool
  | Call.AddParentModel _ _ => true
  | _ => false

/-- The call does not attach a model to the host namespace. -/
def NotLink (e : Call) : Prop := e.isAddParentModel = false

/-- One call of the host on a script: `Populate` with the answers of the
stream reads, or `Execute` with a reporting client. -/
inductive ScriptCall where
  | Populate (reads : List (HRESULT × List Byte))
  | Execute (client : Option Client)
  deriving DecidableEq, Repr

/-- A sequence of host calls run in order on a script, threading the script and
the trace.  The result is `none` when the listed reads of a `Populate` run out. -/
def runCalls (env : Env) : List ScriptCall → PythonScript × Trace → Option (PythonScript × Trace)
  | [], st => some st
  | ScriptCall.Populate reads :: rest, st =>
      match PythonScript.Populate st.1 reads with
      | none => none
      | some r => runCalls env rest (r.2, st.2)
  | ScriptCall.Execute client :: rest, st =>
      let r := PythonScript.Execute env st.1 client st.2
      runCalls env rest (r.2.1, r.2.2)

/-- The environment `quietEnv` in which the host refuses to detach a model:
`RemoveParentModel` returns `E_FAIL`. -/
def detachFailsEnv : Env :=
  { quietEnv with RemoveParentModel := fun _ _ _ => E_FAIL }

/-- A one-read stream delivering the UTF-16 text "x" and signalling the end of
the stream. -/
def streamX : List (HRESULT × List Byte) := [(S_FALSE, [120, 0])]

/-- A one-read stream delivering the UTF-16 text "y" and signalling the end of
the stream. -/
def streamY : List (HRESULT × List Byte) := [(S_FALSE, [121, 0])]

/-- A script that was populated and executed: state `Executed`, holding its
active context. -/
def executedScript : PythonScript :=
  { freshScript with
    m_state := ScriptState.Executed
    m_scriptContent := sourceX
    m_spActiveState := some activeContext }

/-- A new context whose body has run and that is not initialized yet: state
`Executed`, module 1, nothing cached or linked. -/
def executedContext : PythonScriptState where
  m_state := ScriptStateState.Executed
  m_scriptContent := [120, 0, 0]
  m_pModule := 1
  m_pythonMainFunction := none
  m_namespaceObject := none

/-- A freshly constructed context: state `Created`, module 1. -/
def createdContext : PythonScriptState where
  m_state := ScriptStateState.Created
  m_scriptContent := [120, 0, 0]
  m_pModule := 1
  m_pythonMainFunction := none
  m_namespaceObject := none

end PyProvider

/-! # Properties -/

namespace PyProvider

/-! ## Result codes -/

theorem SUCCEEDED_eq_not_FAILED (hr : HRESULT) : SUCCEEDED hr = !FAILED hr := by
  unfold SUCCEEDED FAILED
  by_cases h : hr < 0
  · have h2 : ¬ (0 ≤ hr) := not_le.mpr h
    simp [h, h2]
  · have h2 : 0 ≤ hr := not_lt.mp h
    simp [h, h2]

theorem FAILED_E_FAIL : FAILED E_FAIL = true := by decide

theorem FAILED_E_UNEXPECTED : FAILED E_UNEXPECTED = true := by decide

theorem FAILED_S_OK : FAILED S_OK = false := by decide

/-! ## `InternalExecute` -/

/-- `InternalExecute` changes no field of the script but the active context. -/
theorem InternalExecute_frame (env : Env) (s : PythonScript) (w : Trace) :
    (PythonScript.InternalExecute env s w).2.1 =
      { s with m_spActiveState := (PythonScript.InternalExecute env s w).2.1.m_spActiveState } := by
  unfold PythonScript.InternalExecute
  simp only
  split
  · rfl
  · split
    · rfl
    · split
      · rfl
      · split <;> rfl

/-- A failing `InternalExecute` leaves no active context. -/
theorem InternalExecute_failed_active (env : Env) (s : PythonScript) (w : Trace)
    (h : FAILED (PythonScript.InternalExecute env s w).1 = true) :
    (PythonScript.InternalExecute env s w).2.1.m_spActiveState = none := by
  unfold PythonScript.InternalExecute at h ⊢
  simp only at h ⊢
  split
  · rfl
  · split
    · rfl
    · split
      · rfl
      · split
        · rfl
        · rename_i hf
          simp [PythonScriptState.FinalizeInitialization, FAILED_S_OK] at h hf ⊢
          simp [PythonScriptState.FinalizeInitialization, FAILED_S_OK, *] at h

theorem InternalExecute_m_state (env : Env) (s : PythonScript) (w : Trace) :
    (PythonScript.InternalExecute env s w).2.1.m_state = s.m_state := by
  rw [InternalExecute_frame]

theorem InternalExecute_m_spReportingClient (env : Env) (s : PythonScript) (w : Trace) :
    (PythonScript.InternalExecute env s w).2.1.m_spReportingClient = s.m_spReportingClient := by
  rw [InternalExecute_frame]

theorem InternalExecute_m_scriptContent (env : Env) (s : PythonScript) (w : Trace) :
    (PythonScript.InternalExecute env s w).2.1.m_scriptContent = s.m_scriptContent := by
  rw [InternalExecute_frame]

/-! ## The rollback and the guarded block of `Execute` -/

theorem rollback_m_state (env : Env) (s : PythonScript) (cur : Option PythonScriptState)
    (hr : HRESULT) (w : Trace) :
    (PythonScript.rollback env s cur hr w).2.1.m_state = s.m_state := by
  unfold PythonScript.rollback
  cases cur <;> rfl

theorem rollback_failed (env : Env) (s : PythonScript) (cur : Option PythonScriptState)
    (hr : HRESULT) (w : Trace) (h : FAILED hr = true) :
    FAILED (PythonScript.rollback env s cur hr w).1 = true := by
  unfold PythonScript.rollback
  cases cur with
  | none => exact h
  | some c =>
      simp only
      split
      · assumption
      · exact h

theorem executeGuarded_m_state (env : Env) (s : PythonScript) (client : Option Client)
    (w : Trace) :
    (PythonScript.executeGuarded env s client w).2.1.m_state =
      if s.m_state = ScriptState.Unlinked then ScriptState.Populated else s.m_state := by
  unfold PythonScript.executeGuarded
  simp only
  by_cases hu : SUCCEEDED (PythonScript.detachAndUninitialize env s w).1 = true
  · rw [if_pos hu]
    by_cases hf : FAILED (PythonScript.InternalExecute env (s.beginExecute client)
        (PythonScript.detachAndUninitialize env s w).2.2).1 = true
    · rw [if_pos hf, rollback_m_state, InternalExecute_m_state]
      rfl
    · rw [if_neg hf, InternalExecute_m_state]
      rfl
  · rw [if_neg hu]
    rfl

theorem executeGuarded_m_spReportingClient (env : Env) (s : PythonScript)
    (client : Option Client) (w : Trace) :
    (PythonScript.executeGuarded env s client w).2.1.m_spReportingClient = none := by
  rfl

/-- The state after `PythonScript::Execute`, for every script and every
environment: `Executed` when the call succeeded, and otherwise the state before
the call with `Unlinked` replaced by `Populated`. -/
theorem Execute_m_state (env : Env) (s : PythonScript) (client : Option Client) (w : Trace) :
    (PythonScript.Execute env s client w).2.1.m_state =
      if SUCCEEDED (PythonScript.Execute env s client w).1 = true then ScriptState.Executed
      else if s.m_state = ScriptState.Unlinked then ScriptState.Populated else s.m_state := by
  unfold PythonScript.Execute
  simp only
  by_cases hready : s.m_state = ScriptState.Populated ∨ s.m_state = ScriptState.Repopulated ∨
      s.m_state = ScriptState.Unlinked
  · rw [if_pos hready]
    have hst := executeGuarded_m_state env s client w
    by_cases hs : SUCCEEDED (PythonScript.executeGuarded env s client w).1 = true
    · rw [if_pos hs, if_pos hs]
    · rw [if_neg hs, if_neg hs, hst]
  · rw [if_neg hready]
    have hne : s.m_state ≠ ScriptState.Unlinked := fun h => hready (Or.inr (Or.inr h))
    have hs : ¬ (SUCCEEDED E_UNEXPECTED = true) := by decide
    rw [if_neg hs, if_neg hs, if_neg hne]

/-- The commit sequence of `InternalExecute`: when construction, body execution
and `InitializeScript` succeed, the new context becomes the active context and
the result is the `S_OK` of `FinalizeInitialization`. -/
theorem InternalExecute_commit (env : Env) (s : PythonScript) (w : Trace)
    (c0 : PythonScriptState) (wM : Trace)
    (hmk : PythonScriptState.RuntimeClassInitialize env s.m_scriptContent w = (Except.ok c0, wM))
    (hrE : HRESULT) (cE : PythonScriptState) (wE : Trace)
    (hex : PythonScriptState.Execute env { s with m_spActiveState := some c0 } c0 wM =
      (hrE, cE, wE))
    (hexok : SUCCEEDED hrE = true)
    (hrI : HRESULT) (cI : PythonScriptState) (wI : Trace)
    (hin : PythonScriptState.InitializeScript env { s with m_spActiveState := some cE } cE wE =
      (hrI, cI, wI))
    (hinok : SUCCEEDED hrI = true) :
    PythonScript.InternalExecute env s w = (S_OK, { s with m_spActiveState := some cI }, wI) := by
  have hE : FAILED hrE = false := by
    rw [SUCCEEDED_eq_not_FAILED] at hexok
    simpa using hexok
  have hI : FAILED hrI = false := by
    rw [SUCCEEDED_eq_not_FAILED] at hinok
    simpa using hinok
  unfold PythonScript.InternalExecute
  simp only [hmk, hex, hin, hE, hI, PythonScriptState.FinalizeInitialization, FAILED_S_OK]
  simp

/-! ## `Populate` -/

/-- The loop of `Populate` on a stream whose reads succeed, without signalling
the end of the stream, until one read returns `S_FALSE`: it stops at that read
with all chunks appended in order. -/
theorem populateLoop_reads (pre : List (HRESULT × List Byte)) (last : List Byte)
    (rest : List (HRESULT × List Byte)) (content : List Byte)
    (hpre : ∀ r ∈ pre, SUCCEEDED r.1 = true ∧ r.1 ≠ S_FALSE) :
    populateLoop (pre ++ (S_FALSE, last) :: rest) content =
      some (S_OK, content ++ (pre.map Prod.snd).flatten ++ last) := by
  induction pre generalizing content with
  | nil =>
      have hf : FAILED S_FALSE = false := by decide
      simp [populateLoop, hf]
  | cons r pre ih =>
      obtain ⟨hr, chunk⟩ := r
      have h1 := hpre (hr, chunk) (List.mem_cons_self _ _)
      have hf : FAILED hr = false := by
        have := h1.1
        rw [SUCCEEDED_eq_not_FAILED] at this
        simpa using this
      have hne : hr ≠ S_FALSE := h1.2
      have ih2 := ih (content ++ chunk) (fun r hr2 => hpre r (List.mem_cons_of_mem _ hr2))
      have hstep : populateLoop ((hr, chunk) :: (pre ++ (S_FALSE, last) :: rest)) content =
          populateLoop (pre ++ (S_FALSE, last) :: rest) (content ++ chunk) := by
        simp [populateLoop, hf, hne]
      rw [List.cons_append, hstep, ih2]
      simp [List.append_assoc]

/-- The whole of `Populate` on a stream read to end of stream without error. -/
theorem Populate_reads (s : PythonScript) (pre : List (HRESULT × List Byte))
    (last : List Byte) (rest : List (HRESULT × List Byte))
    (hpre : ∀ r ∈ pre, SUCCEEDED r.1 = true ∧ r.1 ≠ S_FALSE) :
    PythonScript.Populate s (pre ++ (S_FALSE, last) :: rest) =
      some (S_OK,
        { s with
          m_scriptContent := (pre.map Prod.snd).flatten ++ last ++ [0, 0]
          m_state := if s.m_state = ScriptState.Executed then ScriptState.Repopulated
                     else ScriptState.Populated }) := by
  have hl := populateLoop_reads pre last rest [] hpre
  have hf : FAILED S_OK = false := by decide
  have hne : ¬ (S_OK = S_FALSE) := by decide
  unfold PythonScript.Populate
  rw [hl]
  simp only [hf, if_neg hne]
  simp

/-! ## Failure of the new context -/

/-- `InitializeScript` on a namespace whose `initializeScript` attribute is not
callable: it returns `E_FAIL` after the three queries, with the context
untouched. -/
theorem InitializeScript_of_noncallable (env : Env) (script : PythonScript)
    (c : PythonScriptState) (w : Trace)
    (hhas : env.PyObject_HasAttrString w (some c.m_pModule) "initializeScript" ≠ 0)
    (hnc : env.PyCallable_Check
        (w ++ [Call.PyObject_HasAttrString (some c.m_pModule) "initializeScript"] ++
          [Call.PyObject_GetAttrString (some c.m_pModule) "initializeScript"])
        (env.PyObject_GetAttrString
          (w ++ [Call.PyObject_HasAttrString (some c.m_pModule) "initializeScript"])
          (some c.m_pModule) "initializeScript") = 0) :
    PythonScriptState.InitializeScript env script c w =
      (E_FAIL, c,
       w ++ [Call.PyObject_HasAttrString (some c.m_pModule) "initializeScript"] ++
         [Call.PyObject_GetAttrString (some c.m_pModule) "initializeScript"] ++
         [Call.PyCallable_Check (env.PyObject_GetAttrString
           (w ++ [Call.PyObject_HasAttrString (some c.m_pModule) "initializeScript"])
           (some c.m_pModule) "initializeScript")]) := by
  unfold PythonScriptState.InitializeScript PythonScriptState.callInitializer
  simp only [if_pos hhas, if_pos hnc]

/-- A failing `InitializeScript` of the new context makes `InternalExecute` fail
with the same code. -/
theorem InternalExecute_of_initialize_failed (env : Env) (s : PythonScript) (w : Trace)
    (c0 : PythonScriptState) (wM : Trace)
    (hmk : PythonScriptState.RuntimeClassInitialize env s.m_scriptContent w = (Except.ok c0, wM))
    (hrE : HRESULT) (cE : PythonScriptState) (wE : Trace)
    (hex : PythonScriptState.Execute env { s with m_spActiveState := some c0 } c0 wM =
      (hrE, cE, wE))
    (hexok : SUCCEEDED hrE = true)
    (hrI : HRESULT) (cI : PythonScriptState) (wI : Trace)
    (hin : PythonScriptState.InitializeScript env { s with m_spActiveState := some cE } cE wE =
      (hrI, cI, wI))
    (hinf : FAILED hrI = true) :
    PythonScript.InternalExecute env s w = (hrI, { s with m_spActiveState := none }, wI) := by
  have hE : FAILED hrE = false := by
    rw [SUCCEEDED_eq_not_FAILED] at hexok
    simpa using hexok
  unfold PythonScript.InternalExecute
  simp only [hmk, hex, hin, hE, hinf]
  simp

/-- A failing `InternalExecute` makes `Execute` fail. -/
theorem Execute_failed_of_InternalExecute_failed (env : Env) (s : PythonScript)
    (client : Option Client) (w : Trace)
    (hst : s.m_state = ScriptState.Populated ∨ s.m_state = ScriptState.Repopulated ∨
      s.m_state = ScriptState.Unlinked)
    (hunok : SUCCEEDED (PythonScript.detachAndUninitialize env s w).1 = true)
    (hf : FAILED (PythonScript.InternalExecute env (PythonScript.beginExecute s client)
      (PythonScript.detachAndUninitialize env s w).2.2).1 = true) :
    FAILED (PythonScript.Execute env s client w).1 = true := by
  unfold PythonScript.Execute PythonScript.executeGuarded
  simp only [if_pos hst, if_pos hunok, if_pos hf]
  exact rollback_failed _ _ _ _ _ hf

/-! ## Trace extension -/

theorem TraceExtends.refl (P : Call → Prop) (w : Trace) : TraceExtends P w w :=
  ⟨[], by simp, by simp⟩

theorem TraceExtends.snoc {P : Call → Prop} {w1 w2 : Trace} {e : Call}
    (h : TraceExtends P w1 w2) (he : P e) : TraceExtends P w1 (w2 ++ [e]) := by
  obtain ⟨evs, rfl, hall⟩ := h
  refine ⟨evs ++ [e], by simp, ?_⟩
  intro x hx
  rcases List.mem_append.mp hx with hx | hx
  · exact hall x hx
  · rw [List.mem_singleton.mp hx]
    exact he

theorem TraceExtends.trans {P : Call → Prop} {w1 w2 w3 : Trace}
    (h12 : TraceExtends P w1 w2) (h23 : TraceExtends P w2 w3) : TraceExtends P w1 w3 := by
  obtain ⟨e1, rfl, h1⟩ := h12
  obtain ⟨e2, rfl, h2⟩ := h23
  refine ⟨e1 ++ e2, by simp, ?_⟩
  intro x hx
  rcases List.mem_append.mp hx with hx | hx
  · exact h1 x hx
  · exact h2 x hx

theorem InternalReportError_notRun (env : Env) (s : PythonScript) (ec : ErrorClass)
    (hrError : HRESULT) (line pos : Nat) (msg : String) (va : List String) (w : Trace) :
    TraceExtends NotRun w
      (PythonScript.InternalReportError env s ec hrError line pos msg va w).2 := by
  unfold PythonScript.InternalReportError
  simp only
  repeat' split
  all_goals
    repeat (first
      | exact TraceExtends.refl _ _
      | refine TraceExtends.snoc ?_ rfl)

theorem InternalReportErrorRsc_notRun (env : Env) (s : PythonScript) (ec : ErrorClass)
    (hrError : HRESULT) (line pos : Nat) (rscId : Nat) (va : List String) (w : Trace) :
    TraceExtends NotRun w
      (PythonScript.InternalReportErrorRsc env s ec hrError line pos rscId va w).2 := by
  unfold PythonScript.InternalReportErrorRsc
  simp only
  repeat' split
  all_goals
    repeat (first
      | exact TraceExtends.refl _ _
      | refine TraceExtends.snoc ?_ rfl
      | refine TraceExtends.trans ?_ (InternalReportError_notRun _ _ _ _ _ _ _ _ _))

theorem fetchULongAttr_notRun (env : Env) (value : Option PyObj) (name : String) (cur : Nat)
    (w : Trace) : TraceExtends NotRun w (fetchULongAttr env value name cur w).2.2 := by
  unfold fetchULongAttr
  simp only
  repeat' split
  all_goals
    repeat (first
      | exact TraceExtends.refl _ _
      | refine TraceExtends.snoc ?_ rfl)

theorem fetchMsgAttr_notRun (env : Env) (value : Option PyObj) (w : Trace) :
    TraceExtends NotRun w (fetchMsgAttr env value w).2.2 := by
  unfold fetchMsgAttr
  simp only
  repeat' split
  all_goals
    repeat (first
      | exact TraceExtends.refl _ _
      | refine TraceExtends.snoc ?_ rfl)

theorem inspectException_notRun (env : Env) (w : Trace) :
    TraceExtends NotRun w (inspectException env w).2.2.2.2 := by
  unfold inspectException
  simp only
  repeat' split
  all_goals
    repeat (first
      | exact TraceExtends.refl _ _
      | refine TraceExtends.snoc ?_ rfl
      | refine TraceExtends.trans ?_ (fetchMsgAttr_notRun _ _ _)
      | refine TraceExtends.trans ?_ (fetchULongAttr_notRun _ _ _ _ _))

theorem ReportExceptionOrError_notRun (env : Env) (s : PythonScript) (hrIn : HRESULT)
    (ec : ErrorClass) (rscId : Nat) (va : List String) (w : Trace) :
    TraceExtends NotRun w
      (PythonScript.ReportExceptionOrError env s hrIn ec rscId va w).2.2 := by
  unfold PythonScript.ReportExceptionOrError
  simp only
  repeat' split
  all_goals
    repeat (first
      | exact TraceExtends.refl _ _
      | refine TraceExtends.snoc ?_ rfl
      | refine TraceExtends.trans ?_ (InternalReportError_notRun _ _ _ _ _ _ _ _ _)
      | refine TraceExtends.trans ?_ (InternalReportErrorRsc_notRun _ _ _ _ _ _ _ _ _)
      | refine TraceExtends.trans ?_ (inspectException_notRun _ _))

theorem callInitializer_notRun (env : Env) (script : PythonScript) (c : PythonScriptState)
    (w : Trace) :
    TraceExtends NotRun w (PythonScriptState.callInitializer env script c w).2.2 := by
  unfold PythonScriptState.callInitializer
  simp only
  repeat' split
  all_goals
    repeat (first
      | exact TraceExtends.refl _ _
      | refine TraceExtends.snoc ?_ rfl
      | refine TraceExtends.trans ?_ (ReportExceptionOrError_notRun _ _ _ _ _ _ _))

theorem discoverInvoker_notRun (env : Env) (c : PythonScriptState) (w : Trace) :
    TraceExtends NotRun w (PythonScriptState.discoverInvoker env c w).2.2 := by
  unfold PythonScriptState.discoverInvoker
  simp only
  repeat' split
  all_goals
    repeat (first
      | exact TraceExtends.refl _ _
      | refine TraceExtends.snoc ?_ rfl)

theorem linkNamespace_notRun (env : Env) (script : PythonScript) (c : PythonScriptState)
    (w : Trace) :
    TraceExtends NotRun w (PythonScriptState.linkNamespace env script c w).2.2 := by
  unfold PythonScriptState.linkNamespace
  simp only
  repeat' split
  all_goals
    repeat (first
      | exact TraceExtends.refl _ _
      | refine TraceExtends.snoc ?_ rfl)

/-- `InitializeScript` never runs a script body: it extends the trace by calls
none of which is `PyRun_String`. -/
theorem InitializeScript_notRun (env : Env) (script : PythonScript) (c : PythonScriptState)
    (w : Trace) :
    TraceExtends NotRun w (PythonScriptState.InitializeScript env script c w).2.2 := by
  unfold PythonScriptState.InitializeScript
  simp only
  repeat' split
  all_goals
    repeat (first
      | exact TraceExtends.refl _ _
      | refine TraceExtends.trans ?_ (linkNamespace_notRun _ _ _ _)
      | refine TraceExtends.trans ?_ (discoverInvoker_notRun _ _ _)
      | exact callInitializer_notRun _ _ _ _)

/-! ## What `InitializeScript` and `UninitializeScript` keep -/

theorem callInitializer_keeps (env : Env) (script : PythonScript) (c : PythonScriptState)
    (w : Trace) :
    (PythonScriptState.callInitializer env script c w).2.1.m_pModule = c.m_pModule ∧
    (PythonScriptState.callInitializer env script c w).2.1.m_scriptContent = c.m_scriptContent ∧
    (PythonScriptState.callInitializer env script c w).2.1.m_pythonMainFunction =
      c.m_pythonMainFunction := by
  unfold PythonScriptState.callInitializer
  simp only
  repeat' split
  all_goals exact ⟨rfl, rfl, rfl⟩

theorem discoverInvoker_keeps (env : Env) (c : PythonScriptState) (w : Trace) :
    (PythonScriptState.discoverInvoker env c w).2.1.m_pModule = c.m_pModule ∧
    (PythonScriptState.discoverInvoker env c w).2.1.m_scriptContent = c.m_scriptContent := by
  unfold PythonScriptState.discoverInvoker
  simp only
  repeat' split
  all_goals exact ⟨rfl, rfl⟩

theorem linkNamespace_keeps (env : Env) (script : PythonScript) (c : PythonScriptState)
    (w : Trace) :
    (PythonScriptState.linkNamespace env script c w).2.1.m_pModule = c.m_pModule ∧
    (PythonScriptState.linkNamespace env script c w).2.1.m_scriptContent = c.m_scriptContent ∧
    (PythonScriptState.linkNamespace env script c w).2.1.m_pythonMainFunction =
      c.m_pythonMainFunction := by
  unfold PythonScriptState.linkNamespace
  simp only
  repeat' split
  all_goals exact ⟨rfl, rfl, rfl⟩

/-- `InitializeScript` keeps the module and the source text of the context. -/
theorem InitializeScript_keeps (env : Env) (script : PythonScript) (c : PythonScriptState)
    (w : Trace) :
    (PythonScriptState.InitializeScript env script c w).2.1.m_pModule = c.m_pModule ∧
    (PythonScriptState.InitializeScript env script c w).2.1.m_scriptContent =
      c.m_scriptContent := by
  have ha := callInitializer_keeps env script c w
  have hb := discoverInvoker_keeps env (PythonScriptState.callInitializer env script c w).2.1
    (PythonScriptState.callInitializer env script c w).2.2
  have hl := linkNamespace_keeps env script
    (PythonScriptState.discoverInvoker env (PythonScriptState.callInitializer env script c w).2.1
      (PythonScriptState.callInitializer env script c w).2.2).2.1
    (PythonScriptState.discoverInvoker env (PythonScriptState.callInitializer env script c w).2.1
      (PythonScriptState.callInitializer env script c w).2.2).2.2
  unfold PythonScriptState.InitializeScript
  simp only
  split
  · exact ⟨ha.1, ha.2.1⟩
  · split
    · exact ⟨hb.1.trans ha.1, hb.2.trans ha.2.1⟩
    · exact ⟨hl.1.trans (hb.1.trans ha.1), hl.2.1.trans (hb.2.trans ha.2.1)⟩

/-- `UninitializeScript` keeps the module and the source text of the context. -/
theorem UninitializeScript_keeps (env : Env) (script : PythonScript) (c : PythonScriptState)
    (w : Trace) :
    (PythonScriptState.UninitializeScript env script c w).2.1.m_pModule = c.m_pModule ∧
    (PythonScriptState.UninitializeScript env script c w).2.1.m_scriptContent =
      c.m_scriptContent := by
  unfold PythonScriptState.UninitializeScript
  split
  · simp only
    split <;> exact ⟨rfl, rfl⟩
  · exact ⟨rfl, rfl⟩

/-! ## The rollback path of `Execute` -/

/-- The result of `Execute` on the rollback path: a script in an executable
state holds the context `C`, `UninitializeScript` of `C` succeeds and leaves
`cU`, and `InternalExecute` fails with `hrF`.  Then `cU` is put back and
re-initialized by one `InitializeScript` call, whose outcome is `(hrR, cR, wR)`. -/
theorem Execute_rollback (env : Env) (s : PythonScript) (client : Option Client) (w : Trace)
    (C : PythonScriptState)
    (hst : s.m_state = ScriptState.Populated ∨ s.m_state = ScriptState.Repopulated ∨
      s.m_state = ScriptState.Unlinked)
    (hC : s.m_spActiveState = some C)
    (hrU : HRESULT) (cU : PythonScriptState) (wU : Trace)
    (hun : PythonScriptState.UninitializeScript env { s with m_spActiveState := none } C w =
      (hrU, cU, wU))
    (hunok : SUCCEEDED hrU = true)
    (hrF : HRESULT) (sF : PythonScript) (wF : Trace)
    (hie : PythonScript.InternalExecute env (PythonScript.beginExecute s client) wU =
      (hrF, sF, wF))
    (hf : FAILED hrF = true)
    (hrR : HRESULT) (cR : PythonScriptState) (wR : Trace)
    (hin : PythonScriptState.InitializeScript env
      { PythonScript.beginExecute s client with m_spActiveState := some cU } cU wF =
      (hrR, cR, wR)) :
    PythonScript.Execute env s client w =
      ((if FAILED hrR = true then hrR else hrF),
       { s with
         m_state := if s.m_state = ScriptState.Unlinked then ScriptState.Populated
                    else s.m_state
         m_spActiveState := some cR
         m_spReportingClient := none },
       wR) := by
  have hframe := InternalExecute_frame env (PythonScript.beginExecute s client) wU
  rw [hie] at hframe
  simp only at hframe
  have hdet : PythonScript.detachAndUninitialize env s w = (hrU, some cU, wU) := by
    unfold PythonScript.detachAndUninitialize
    rw [hC]
    simp only [hun]
  have hroll : PythonScript.rollback env sF (some cU) hrF wF =
      ((if FAILED hrR = true then hrR else hrF),
       { PythonScript.beginExecute s client with m_spActiveState := some cR }, wR) := by
    unfold PythonScript.rollback
    simp only
    have hs2 : ({ sF with m_spActiveState := some cU } : PythonScript) =
        { PythonScript.beginExecute s client with m_spActiveState := some cU } := by
      rw [hframe]
    rw [hs2, hin]
    obtain ⟨f1, f2, f3, f4, f5, f6, f7⟩ := sF
    simp only [PythonScript.mk.injEq] at hframe
    obtain ⟨h1, h2, h3, h4, -, h6, h7⟩ := hframe
    simp only [h1, h2, h3, h4, h6, h7]
  have hfail : FAILED (if FAILED hrR = true then hrR else hrF) = true := by
    by_cases h : FAILED hrR = true
    · rw [if_pos h]; exact h
    · rw [if_neg h]; exact hf
  have hns : ¬ (SUCCEEDED (if FAILED hrR = true then hrR else hrF) = true) := by
    rw [SUCCEEDED_eq_not_FAILED, hfail]
    decide
  unfold PythonScript.Execute PythonScript.executeGuarded
  simp only [if_pos hst, hdet, if_pos hunok, hie, if_pos hf, hroll, if_neg hns]
  simp [PythonScript.beginExecute]

/-- The calls of `callInitializer` when the namespace exposes a callable
`initializeScript` and the argument tuple is created: the initializer is
called. -/
theorem callInitializer_calls (env : Env) (script : PythonScript) (c : PythonScriptState)
    (w : Trace) (args : PyObj)
    (hhas : env.PyObject_HasAttrString w (some c.m_pModule) "initializeScript" ≠ 0)
    (hcall : env.PyCallable_Check
        (w ++ [Call.PyObject_HasAttrString (some c.m_pModule) "initializeScript"] ++
          [Call.PyObject_GetAttrString (some c.m_pModule) "initializeScript"])
        (env.PyObject_GetAttrString
          (w ++ [Call.PyObject_HasAttrString (some c.m_pModule) "initializeScript"])
          (some c.m_pModule) "initializeScript") ≠ 0)
    (htuple : env.PyTuple_New
        (w ++ [Call.PyObject_HasAttrString (some c.m_pModule) "initializeScript"] ++
          [Call.PyObject_GetAttrString (some c.m_pModule) "initializeScript"] ++
          [Call.PyCallable_Check (env.PyObject_GetAttrString
            (w ++ [Call.PyObject_HasAttrString (some c.m_pModule) "initializeScript"])
            (some c.m_pModule) "initializeScript")]) 0 = some args) :
    ∃ post, (PythonScriptState.callInitializer env script c w).2.2 =
      w ++ ([Call.PyObject_HasAttrString (some c.m_pModule) "initializeScript",
             Call.PyObject_GetAttrString (some c.m_pModule) "initializeScript",
             Call.PyCallable_Check (env.PyObject_GetAttrString
               (w ++ [Call.PyObject_HasAttrString (some c.m_pModule) "initializeScript"])
               (some c.m_pModule) "initializeScript"),
             Call.PyTuple_New 0,
             Call.PyObject_Call (env.PyObject_GetAttrString
               (w ++ [Call.PyObject_HasAttrString (some c.m_pModule) "initializeScript"])
               (some c.m_pModule) "initializeScript") args] ++ post) := by
  unfold PythonScriptState.callInitializer
  simp only [if_pos hhas, if_neg hcall, htuple]
  split
  · obtain ⟨evs, hevs, -⟩ := ReportExceptionOrError_notRun env script E_FAIL
      ErrorClass.ErrorClassError env.IDS_FAIL_METHOD ["initializeScript"]
      (w ++ [Call.PyObject_HasAttrString (some c.m_pModule) "initializeScript"] ++
          [Call.PyObject_GetAttrString (some c.m_pModule) "initializeScript"] ++
          [Call.PyCallable_Check (env.PyObject_GetAttrString
            (w ++ [Call.PyObject_HasAttrString (some c.m_pModule) "initializeScript"])
            (some c.m_pModule) "initializeScript")] ++ [Call.PyTuple_New 0] ++
          [Call.PyObject_Call (env.PyObject_GetAttrString
            (w ++ [Call.PyObject_HasAttrString (some c.m_pModule) "initializeScript"])
            (some c.m_pModule) "initializeScript") args])
    refine ⟨evs, ?_⟩
    simp only
    rw [hevs]
    simp
  · exact ⟨[], by simp⟩

/-- The trace of `InitializeScript` extends the trace of its first block. -/
theorem InitializeScript_extends_callInitializer (env : Env) (script : PythonScript)
    (c : PythonScriptState) (w : Trace) :
    TraceExtends NotRun (PythonScriptState.callInitializer env script c w).2.2
      (PythonScriptState.InitializeScript env script c w).2.2 := by
  unfold PythonScriptState.InitializeScript
  simp only
  repeat' split
  all_goals
    repeat (first
      | exact TraceExtends.refl _ _
      | refine TraceExtends.trans ?_ (linkNamespace_notRun _ _ _ _)
      | refine TraceExtends.trans ?_ (discoverInvoker_notRun _ _ _))

/-! ## Module names -/

theorem requestedModuleNames_append (w1 w2 : Trace) :
    requestedModuleNames (w1 ++ w2) = requestedModuleNames w1 ++ requestedModuleNames w2 := by
  induction w1 with
  | nil => rfl
  | cons e w1 ih =>
      cases e <;> simp [requestedModuleNames, ih]

/-- The calls of a successful `RuntimeClassInitialize`: two transcoding calls
and the request of the module `__foo__`, whose answer is the context's module. -/
theorem RuntimeClassInitialize_calls (env : Env) (content : List Byte) (w : Trace)
    (c : PythonScriptState) (w2 : Trace)
    (h : PythonScriptState.RuntimeClassInitialize env content w = (Except.ok c, w2)) :
    w2 = w ++ [Call.WideCharToMultiByte content (content.length / 2) 0,
               Call.WideCharToMultiByte content (content.length / 2)
                 (env.WideCharToMultiByte w content (content.length / 2) 0).1.toNat,
               Call.PyImport_AddModule "__foo__"] ∧
    env.PyImport_AddModule w2.dropLast "__foo__" = some c.m_pModule := by
  unfold PythonScriptState.RuntimeClassInitialize at h
  simp only at h
  split at h
  · simp at h
  · split at h
    · simp at h
    · rename_i m hm
      simp only [Prod.mk.injEq, Except.ok.injEq] at h
      obtain ⟨hc, hw⟩ := h
      subst hw
      subst hc
      refine ⟨by simp, ?_⟩
      simp only [List.dropLast_concat]
      exact hm

/-! ## C1: a failing `Execute` and the script state -/

/-- C1, counterexample: a failing `Execute` started in state `Unlinked` does not
leave the script in `Unlinked`.  The script holds its detached context, the new
body raises, `Execute` returns `E_FAIL`, and the state after the call is
`Populated`. -/
theorem Execute_failure_from_Unlinked_moves_state :
    unlinkedScript.m_state = ScriptState.Unlinked ∧
    (PythonScript.Execute raisingEnv unlinkedScript (some 9) []).1 = E_FAIL ∧
    FAILED (PythonScript.Execute raisingEnv unlinkedScript (some 9) []).1 = true ∧
    (PythonScript.Execute raisingEnv unlinkedScript (some 9) []).2.1.m_state =
      ScriptState.Populated ∧
    (PythonScript.Execute raisingEnv unlinkedScript (some 9) []).2.1.m_state ≠
      unlinkedScript.m_state := by
  decide

/-- C1, amended: for every script state and every outcome of the collaborators,
if `PythonScript::Execute` returns a failure then the state after the call is
the state before the call, except that a call started in `Unlinked` leaves the
script in `Populated`; in particular a failing call never advances the script
to `Executed` unless it was already there. -/
theorem Execute_failure_state (env : Env) (s : PythonScript) (client : Option Client)
    (w : Trace) (h : FAILED (PythonScript.Execute env s client w).1 = true) :
    (PythonScript.Execute env s client w).2.1.m_state =
      if s.m_state = ScriptState.Unlinked then ScriptState.Populated else s.m_state := by
  have hs : ¬ (SUCCEEDED (PythonScript.Execute env s client w).1 = true) := by
    rw [SUCCEEDED_eq_not_FAILED, h]
    decide
  rw [Execute_m_state, if_neg hs]

/-- C1, witness: the amended statement at the failing reload of a `Repopulated`
script, whose state stays `Repopulated`. -/
theorem Execute_failure_state_witness :
    FAILED (PythonScript.Execute raisingEnv repopulatedScript (some 9) []).1 = true ∧
    (PythonScript.Execute raisingEnv repopulatedScript (some 9) []).2.1.m_state =
      ScriptState.Repopulated :=
  ⟨by decide, Execute_failure_state raisingEnv repopulatedScript (some 9) [] (by decide)⟩

/-! ## C2: what the rollback restores -/

/-- C2, counterexample: a `Repopulated` script whose active context (executed
and linked, no invoker) is uninitialized successfully; the new body defines
`invokeScript` in the shared module `__foo__` and then raises.  `Execute` fails
and the old context is restored, but its re-initialization discovers the new
`invokeScript`: `IsInvocable` reported false before the call and reports true
after it. -/
theorem rollback_changes_IsInvocable :
    repopulatedScript.m_state = ScriptState.Repopulated ∧
    repopulatedScript.m_spActiveState = some activeContext ∧
    activeContext.m_state = ScriptStateState.Active ∧
    SUCCEEDED (PythonScriptState.UninitializeScript redefiningEnv
      { repopulatedScript with m_spActiveState := none } activeContext []).1 = true ∧
    FAILED (PythonScript.InternalExecute redefiningEnv
      (PythonScript.beginExecute repopulatedScript (some 9))
      (PythonScriptState.UninitializeScript redefiningEnv
        { repopulatedScript with m_spActiveState := none } activeContext []).2.2).1 = true ∧
    PythonScript.IsInvocable repopulatedScript = some (S_OK, some false) ∧
    FAILED (PythonScript.Execute redefiningEnv repopulatedScript (some 9) []).1 = true ∧
    (PythonScript.Execute redefiningEnv repopulatedScript (some 9) []).2.1.m_state =
      ScriptState.Repopulated ∧
    PythonScript.IsInvocable
      (PythonScript.Execute redefiningEnv repopulatedScript (some 9) []).2.1 =
      some (S_OK, some true) := by
  decide

/-- C2, amended: for every script in state `Repopulated` whose active context
`C` is uninitialized successfully, if the new context fails (`InternalExecute`
fails, at construction, body execution or initialization), then after
`PythonScript::Execute` returns (a) the result is a failure, (b) the new context
is released and the active context is again `C` (same module, same source
text), in the form the rollback `InitializeScript` call left it, (c) the state
is still `Repopulated`, and (d) `IsInvocable` succeeds before and after the
call; after the call it reports whether the re-initialized `C` holds an invoker,
which is decided anew by the rollback `InitializeScript`. -/
theorem Execute_rollback_restores (env : Env) (s : PythonScript) (client : Option Client)
    (w : Trace) (C : PythonScriptState)
    (hst : s.m_state = ScriptState.Repopulated)
    (hC : s.m_spActiveState = some C)
    (hrU : HRESULT) (cU : PythonScriptState) (wU : Trace)
    (hun : PythonScriptState.UninitializeScript env { s with m_spActiveState := none } C w =
      (hrU, cU, wU))
    (hunok : SUCCEEDED hrU = true)
    (hrF : HRESULT) (sF : PythonScript) (wF : Trace)
    (hie : PythonScript.InternalExecute env (PythonScript.beginExecute s client) wU =
      (hrF, sF, wF))
    (hf : FAILED hrF = true)
    (hrR : HRESULT) (cR : PythonScriptState) (wR : Trace)
    (hin : PythonScriptState.InitializeScript env
      { PythonScript.beginExecute s client with m_spActiveState := some cU } cU wF =
      (hrR, cR, wR)) :
    FAILED (PythonScript.Execute env s client w).1 = true ∧
    sF.m_spActiveState = none ∧
    (PythonScript.Execute env s client w).2.1.m_spActiveState = some cR ∧
    cR.m_pModule = C.m_pModule ∧
    cR.m_scriptContent = C.m_scriptContent ∧
    (PythonScript.Execute env s client w).2.1.m_state = ScriptState.Repopulated ∧
    PythonScript.IsInvocable s = some (S_OK, some C.HasMainFunction) ∧
    PythonScript.IsInvocable (PythonScript.Execute env s client w).2.1 =
      some (S_OK, some cR.HasMainFunction) := by
  have hready : s.m_state = ScriptState.Populated ∨ s.m_state = ScriptState.Repopulated ∨
      s.m_state = ScriptState.Unlinked := Or.inr (Or.inl hst)
  have hE := Execute_rollback env s client w C hready hC hrU cU wU hun hunok hrF sF wF hie hf
    hrR cR wR hin
  have hne : s.m_state ≠ ScriptState.Unlinked := by rw [hst]; decide
  have hsF : sF.m_spActiveState = none := by
    have := InternalExecute_failed_active env (PythonScript.beginExecute s client) wU
      (by rw [hie]; exact hf)
    rw [hie] at this
    exact this
  have hkU := UninitializeScript_keeps env { s with m_spActiveState := none } C w
  rw [hun] at hkU
  have hkR := InitializeScript_keeps env
    { PythonScript.beginExecute s client with m_spActiveState := some cU } cU wF
  rw [hin] at hkR
  rw [hE]
  refine ⟨?_, hsF, rfl, hkR.1.trans hkU.1, hkR.2.trans hkU.2, ?_, ?_, ?_⟩
  · by_cases h : FAILED hrR = true
    · simp only [if_pos h]; exact h
    · simp only [if_neg h]; exact hf
  · simp only [if_neg hne]
    exact hst
  · unfold PythonScript.IsInvocable
    rw [if_pos (Or.inr hst), hC]
  · unfold PythonScript.IsInvocable
    simp only [if_neg hne, hst]
    simp

/-- C2, witness: the reload of `repopulatedScript` whose new body raises, in an
environment without `invokeScript`; the old context is restored and
`IsInvocable` reports false as before. -/
theorem Execute_rollback_restores_witness :
    FAILED (PythonScript.Execute raisingEnv repopulatedScript (some 9) []).1 = true ∧
    ({ PythonScript.beginExecute repopulatedScript (some 9) with
        m_spActiveState := none } : PythonScript).m_spActiveState = none ∧
    (PythonScript.Execute raisingEnv repopulatedScript (some 9) []).2.1.m_spActiveState =
      some activeContext ∧
    activeContext.m_pModule = activeContext.m_pModule ∧
    activeContext.m_scriptContent = activeContext.m_scriptContent ∧
    (PythonScript.Execute raisingEnv repopulatedScript (some 9) []).2.1.m_state =
      ScriptState.Repopulated ∧
    PythonScript.IsInvocable repopulatedScript =
      some (S_OK, some activeContext.HasMainFunction) ∧
    PythonScript.IsInvocable
      (PythonScript.Execute raisingEnv repopulatedScript (some 9) []).2.1 =
      some (S_OK, some activeContext.HasMainFunction) :=
  Execute_rollback_restores raisingEnv repopulatedScript (some 9) [] activeContext rfl rfl
    S_OK
    { activeContext with m_state := ScriptStateState.Inactive, m_namespaceObject := none }
    [Call.RemoveParentModel 40 50] rfl (by decide)
    E_FAIL
    { PythonScript.beginExecute repopulatedScript (some 9) with m_spActiveState := none }
    [Call.RemoveParentModel 40 50,
     Call.WideCharToMultiByte sourceX 2 0, Call.WideCharToMultiByte sourceX 2 2,
     Call.PyImport_AddModule "__foo__", Call.PyModule_GetDict 1, Call.DebugLog_Make,
     Call.DebugLog_AddToObject 1, Call.PyRun_String [120, 0, 0] (some 101),
     Call.PyErr_Occurred, Call.PyErr_Fetch, Call.PyObject_IsInstance_SyntaxError (some 60),
     Call.PyObject_Str (some 60), Call.PyUnicode_AsUTF8AndSize (some 61),
     Call.GetUTF16 "division by zero",
     Call.ReportError 9 ErrorClass.ErrorClassError E_FAIL "division by zero" 0 0]
    rfl (by decide)
    S_OK activeContext _ rfl

/-! ## C3: what the rollback does to the restored context -/

/-- C3, counterexample: the new body of a `Repopulated` script raises while
the namespace exposes a callable `initializeScript` (object 20).  The calls made
after `InternalExecute` has failed, that is, during the rollback on the restored
context, are not only the link step: they include the call of the initializer. -/
theorem rollback_calls_initializer_again :
    FAILED (PythonScript.InternalExecute initializerEnv
      (PythonScript.beginExecute repopulatedScript (some 9))
      [Call.RemoveParentModel 40 50]).1 = true ∧
    (PythonScript.Execute initializerEnv repopulatedScript (some 9) []).2.2 =
      (PythonScript.InternalExecute initializerEnv
        (PythonScript.beginExecute repopulatedScript (some 9))
        [Call.RemoveParentModel 40 50]).2.2 ++
      [Call.PyObject_HasAttrString (some 1) "initializeScript",
       Call.PyObject_GetAttrString (some 1) "initializeScript",
       Call.PyCallable_Check (some 20),
       Call.PyTuple_New 0,
       Call.PyObject_Call (some 20) 8,
       Call.PyObject_HasAttrString (some 1) "invokeScript",
       Call.MarshalFromPython 1,
       Call.AddParentModel 40 50] ∧
    (((PythonScript.Execute initializerEnv repopulatedScript (some 9) []).2.2.drop
        (PythonScript.InternalExecute initializerEnv
          (PythonScript.beginExecute repopulatedScript (some 9))
          [Call.RemoveParentModel 40 50]).2.2.length).all Call.isLinkStep = false) ∧
    Call.PyObject_Call (some 20) 8 ∈
      (PythonScript.Execute initializerEnv repopulatedScript (some 9) []).2.2.drop
        (PythonScript.InternalExecute initializerEnv
          (PythonScript.beginExecute repopulatedScript (some 9))
          [Call.RemoveParentModel 40 50]).2.2.length := by
  decide

/-- C3, amended: during rollback inside `PythonScript::Execute` (the new context
failed and the previous context `C` was restored), the calls made after
`InternalExecute` are exactly those of one `InitializeScript` call on the
restored context.  None of them is `PyRun_String`: the script body is not run
again.  They are not limited to the link step: whenever the namespace exposes a
callable `initializeScript` (and the argument tuple is created), the
initializer is called again, before the invoker is re-discovered and
the namespace is marshaled and attached. -/
theorem Execute_rollback_reinitializes (env : Env) (s : PythonScript)
    (client : Option Client) (w : Trace) (C : PythonScriptState)
    (hst : s.m_state = ScriptState.Populated ∨ s.m_state = ScriptState.Repopulated ∨
      s.m_state = ScriptState.Unlinked)
    (hC : s.m_spActiveState = some C)
    (hrU : HRESULT) (cU : PythonScriptState) (wU : Trace)
    (hun : PythonScriptState.UninitializeScript env { s with m_spActiveState := none } C w =
      (hrU, cU, wU))
    (hunok : SUCCEEDED hrU = true)
    (hrF : HRESULT) (sF : PythonScript) (wF : Trace)
    (hie : PythonScript.InternalExecute env (PythonScript.beginExecute s client) wU =
      (hrF, sF, wF))
    (hf : FAILED hrF = true) :
    (PythonScript.Execute env s client w).2.2 =
      (PythonScriptState.InitializeScript env
        { PythonScript.beginExecute s client with m_spActiveState := some cU } cU wF).2.2 ∧
    ∃ evs, (PythonScript.Execute env s client w).2.2 = wF ++ evs ∧
      (∀ e ∈ evs, e.isPyRun_String = false) ∧
      (∀ args,
        env.PyObject_HasAttrString wF (some cU.m_pModule) "initializeScript" ≠ 0 →
        env.PyCallable_Check
          (wF ++ [Call.PyObject_HasAttrString (some cU.m_pModule) "initializeScript"] ++
            [Call.PyObject_GetAttrString (some cU.m_pModule) "initializeScript"])
          (env.PyObject_GetAttrString
            (wF ++ [Call.PyObject_HasAttrString (some cU.m_pModule) "initializeScript"])
            (some cU.m_pModule) "initializeScript") ≠ 0 →
        env.PyTuple_New
          (wF ++ [Call.PyObject_HasAttrString (some cU.m_pModule) "initializeScript"] ++
            [Call.PyObject_GetAttrString (some cU.m_pModule) "initializeScript"] ++
            [Call.PyCallable_Check (env.PyObject_GetAttrString
              (wF ++ [Call.PyObject_HasAttrString (some cU.m_pModule) "initializeScript"])
              (some cU.m_pModule) "initializeScript")]) 0 = some args →
        Call.PyObject_Call (env.PyObject_GetAttrString
            (wF ++ [Call.PyObject_HasAttrString (some cU.m_pModule) "initializeScript"])
            (some cU.m_pModule) "initializeScript") args ∈ evs) := by
  have hE := Execute_rollback env s client w C hst hC hrU cU wU hun hunok hrF sF wF hie hf
    (PythonScriptState.InitializeScript env
      { PythonScript.beginExecute s client with m_spActiveState := some cU } cU wF).1
    (PythonScriptState.InitializeScript env
      { PythonScript.beginExecute s client with m_spActiveState := some cU } cU wF).2.1
    (PythonScriptState.InitializeScript env
      { PythonScript.beginExecute s client with m_spActiveState := some cU } cU wF).2.2
    rfl
  have htr : (PythonScript.Execute env s client w).2.2 =
      (PythonScriptState.InitializeScript env
        { PythonScript.beginExecute s client with m_spActiveState := some cU } cU wF).2.2 := by
    rw [hE]
  refine ⟨htr, ?_⟩
  obtain ⟨evs, hevs, hall⟩ := InitializeScript_notRun env
    { PythonScript.beginExecute s client with m_spActiveState := some cU } cU wF
  refine ⟨evs, htr.trans hevs, hall, ?_⟩
  intro args hhas hcall htuple
  obtain ⟨post, hpost⟩ := callInitializer_calls env
    { PythonScript.beginExecute s client with m_spActiveState := some cU } cU wF args
    hhas hcall htuple
  obtain ⟨evs2, hevs2, -⟩ := InitializeScript_extends_callInitializer env
    { PythonScript.beginExecute s client with m_spActiveState := some cU } cU wF
  rw [hpost, hevs, List.append_assoc] at hevs2
  have heq := List.append_cancel_left hevs2
  rw [heq]
  simp

/-- C3, witness: the rollback of `repopulatedScript` in the environment
whose namespace exposes a callable `initializeScript`. -/
theorem Execute_rollback_reinitializes_witness :
    (PythonScript.Execute initializerEnv repopulatedScript (some 9) []).2.2 =
      (PythonScriptState.InitializeScript initializerEnv
        { PythonScript.beginExecute repopulatedScript (some 9) with
          m_spActiveState := some
            { activeContext with m_state := ScriptStateState.Inactive,
                                 m_namespaceObject := none } }
        { activeContext with m_state := ScriptStateState.Inactive, m_namespaceObject := none }
        (PythonScript.InternalExecute initializerEnv
          (PythonScript.beginExecute repopulatedScript (some 9))
          [Call.RemoveParentModel 40 50]).2.2).2.2 :=
  (Execute_rollback_reinitializes initializerEnv repopulatedScript (some 9) [] activeContext
    (Or.inr (Or.inl rfl)) rfl
    S_OK
    { activeContext with m_state := ScriptStateState.Inactive, m_namespaceObject := none }
    [Call.RemoveParentModel 40 50] rfl (by decide)
    E_FAIL
    (PythonScript.InternalExecute initializerEnv
      (PythonScript.beginExecute repopulatedScript (some 9))
      [Call.RemoveParentModel 40 50]).2.1
    (PythonScript.InternalExecute initializerEnv
      (PythonScript.beginExecute repopulatedScript (some 9))
      [Call.RemoveParentModel 40 50]).2.2
    rfl (by decide)).1

/-! ## C4: `Execute` outside the executable states -/

/-- C4: for every script whose state is `Unpopulated` or `Executed`,
`PythonScript::Execute` returns `E_UNEXPECTED` and changes nothing: the script
(state, active context, reporting client and every other field) is the one
before the call, and the trace is unchanged, so no collaborator is called and
no context is constructed, uninitialized or initialized. -/
theorem Execute_unexpected (env : Env) (s : PythonScript) (client : Option Client) (w : Trace)
    (h : s.m_state = ScriptState.Unpopulated ∨ s.m_state = ScriptState.Executed) :
    PythonScript.Execute env s client w = (E_UNEXPECTED, s, w) := by
  have hready : ¬ (s.m_state = ScriptState.Populated ∨ s.m_state = ScriptState.Repopulated ∨
      s.m_state = ScriptState.Unlinked) := by
    rcases h with h | h <;> rw [h] <;> decide
  have hs : ¬ (SUCCEEDED E_UNEXPECTED = true) := by decide
  unfold PythonScript.Execute
  simp only
  rw [if_neg hready, if_neg hs]

/-- C4, witness: a fresh (unpopulated) script. -/
theorem Execute_unexpected_witness :
    freshScript.m_state = ScriptState.Unpopulated ∧
    PythonScript.Execute quietEnv freshScript (some 9) [] = (E_UNEXPECTED, freshScript, []) :=
  ⟨rfl, Execute_unexpected quietEnv freshScript (some 9) [] (Or.inl rfl)⟩

/-! ## C5: the commit path of `Execute` -/

/-- C5: for every script in state `Populated`, `Repopulated` or `Unlinked`, if
uninitializing the prior context (when there is one) succeeds and the
construction, the body execution and `InitializeScript` of the new context
succeed (`FinalizeInitialization` always does), then `PythonScript::Execute`
returns `S_OK`, the state becomes `Executed`, the active context is the newly
built context as `InitializeScript` left it, the reporting client is cleared,
and the previous context is no longer in the script's only context slot. -/
theorem Execute_commit (env : Env) (s : PythonScript) (client : Option Client) (w : Trace)
    (hst : s.m_state = ScriptState.Populated ∨ s.m_state = ScriptState.Repopulated ∨
      s.m_state = ScriptState.Unlinked)
    (hrU : HRESULT) (cur : Option PythonScriptState) (wU : Trace)
    (hun : PythonScript.detachAndUninitialize env s w = (hrU, cur, wU))
    (hunok : SUCCEEDED hrU = true)
    (c0 : PythonScriptState) (wM : Trace)
    (hmk : PythonScriptState.RuntimeClassInitialize env s.m_scriptContent wU =
      (Except.ok c0, wM))
    (hrE : HRESULT) (cE : PythonScriptState) (wE : Trace)
    (hex : PythonScriptState.Execute env
      { PythonScript.beginExecute s client with m_spActiveState := some c0 } c0 wM =
      (hrE, cE, wE))
    (hexok : SUCCEEDED hrE = true)
    (hrI : HRESULT) (cI : PythonScriptState) (wI : Trace)
    (hin : PythonScriptState.InitializeScript env
      { PythonScript.beginExecute s client with m_spActiveState := some cE } cE wE =
      (hrI, cI, wI))
    (hinok : SUCCEEDED hrI = true) :
    PythonScript.Execute env s client w =
      (S_OK,
       { s with m_state := ScriptState.Executed
                m_spActiveState := some cI
                m_spReportingClient := none },
       wI) := by
  have hie := InternalExecute_commit env (PythonScript.beginExecute s client) wU c0 wM hmk
    hrE cE wE hex hexok hrI cI wI hin hinok
  have hok : SUCCEEDED S_OK = true := by decide
  unfold PythonScript.Execute PythonScript.executeGuarded
  simp only [if_pos hst, hun, hunok, hie, FAILED_S_OK, hok, if_true]
  simp [PythonScript.beginExecute, hok]

/-- C5, witness: the first execution of a populated script in the quiet
environment. -/
theorem Execute_commit_witness :
    PythonScript.Execute quietEnv populatedScript (some 9) [] =
      (S_OK,
       { populatedScript with
         m_state := ScriptState.Executed
         m_spActiveState := some activeContext
         m_spReportingClient := none },
       [Call.WideCharToMultiByte sourceX 2 0, Call.WideCharToMultiByte sourceX 2 2,
        Call.PyImport_AddModule "__foo__", Call.PyModule_GetDict 1, Call.DebugLog_Make,
        Call.DebugLog_AddToObject 1, Call.PyRun_String [120, 0, 0] (some 101),
        Call.PyObject_HasAttrString (some 1) "initializeScript",
        Call.PyObject_HasAttrString (some 1) "invokeScript",
        Call.MarshalFromPython 1, Call.AddParentModel 40 50]) :=
  Execute_commit quietEnv populatedScript (some 9) [] (Or.inl rfl)
    S_OK none [] rfl (by decide)
    { m_state := ScriptStateState.Created, m_scriptContent := [120, 0, 0], m_pModule := 1,
      m_pythonMainFunction := none, m_namespaceObject := none }
    [Call.WideCharToMultiByte sourceX 2 0, Call.WideCharToMultiByte sourceX 2 2,
     Call.PyImport_AddModule "__foo__"] rfl
    S_OK
    { m_state := ScriptStateState.Executed, m_scriptContent := [120, 0, 0], m_pModule := 1,
      m_pythonMainFunction := none, m_namespaceObject := none }
    [Call.WideCharToMultiByte sourceX 2 0, Call.WideCharToMultiByte sourceX 2 2,
     Call.PyImport_AddModule "__foo__", Call.PyModule_GetDict 1, Call.DebugLog_Make,
     Call.DebugLog_AddToObject 1, Call.PyRun_String [120, 0, 0] (some 101)] rfl (by decide)
    S_OK activeContext _ rfl (by decide)

/-! ## C6: the state and the frame of `Populate` -/

/-- C6: for every script state and every stream that is read to end of stream
without error (reads that succeed without `S_FALSE`, then one read that returns
`S_FALSE`), `PythonScript::Populate` returns `S_OK`, sets the state to
`Repopulated` if it was `Executed` and to `Populated` otherwise, and leaves the
active execution context, the reporting client and the host namespace as they
were. -/
theorem Populate_state_and_frame (s : PythonScript) (pre : List (HRESULT × List Byte))
    (last : List Byte) (rest : List (HRESULT × List Byte))
    (hpre : ∀ r ∈ pre, SUCCEEDED r.1 = true ∧ r.1 ≠ S_FALSE) :
    ∃ s2, PythonScript.Populate s (pre ++ (S_FALSE, last) :: rest) = some (S_OK, s2) ∧
      s2.m_state = (if s.m_state = ScriptState.Executed then ScriptState.Repopulated
                    else ScriptState.Populated) ∧
      s2.m_spActiveState = s.m_spActiveState ∧
      s2.m_spReportingClient = s.m_spReportingClient ∧
      s2.m_hostNamespace = s.m_hostNamespace ∧
      s2.m_scriptName = s.m_scriptName ∧
      s2.m_scriptFullPathName = s.m_scriptFullPathName :=
  ⟨_, Populate_reads s pre last rest hpre, rfl, rfl, rfl, rfl, rfl, rfl⟩

/-- C6, witness: a two-read stream populating the repopulated script (which
becomes `Populated`, keeping its context). -/
theorem Populate_state_and_frame_witness :
    ∃ s2, PythonScript.Populate repopulatedScript
        ([(S_OK, [120, 0])] ++ (S_FALSE, [121, 0]) :: []) = some (S_OK, s2) ∧
      s2.m_state = (if repopulatedScript.m_state = ScriptState.Executed
                    then ScriptState.Repopulated else ScriptState.Populated) ∧
      s2.m_spActiveState = repopulatedScript.m_spActiveState ∧
      s2.m_spReportingClient = repopulatedScript.m_spReportingClient ∧
      s2.m_hostNamespace = repopulatedScript.m_hostNamespace ∧
      s2.m_scriptName = repopulatedScript.m_scriptName ∧
      s2.m_scriptFullPathName = repopulatedScript.m_scriptFullPathName :=
  Populate_state_and_frame repopulatedScript [(S_OK, [120, 0])] [121, 0] [] (by decide)

/-! ## C7: the buffer after `Populate` -/

/-- C7: for every previous buffer content (that of `s`) and every stream whose
successive reads deliver the chunks of `pre` and then `last` (each at most 1024
bytes), with `S_FALSE` signalled on the last of these reads and no failure,
after `PythonScript::Populate` the cached source buffer is the concatenation of
the chunks in order followed by exactly two zero bytes; nothing of the previous
buffer remains, and the buffer length is the number of bytes read plus 2. -/
theorem Populate_content (s : PythonScript) (pre : List (HRESULT × List Byte))
    (last : List Byte) (rest : List (HRESULT × List Byte))
    (hpre : ∀ r ∈ pre, SUCCEEDED r.1 = true ∧ r.1 ≠ S_FALSE)
    (_hsize : (∀ r ∈ pre, r.2.length ≤ 1024) ∧ last.length ≤ 1024) :
    ∃ s2, PythonScript.Populate s (pre ++ (S_FALSE, last) :: rest) = some (S_OK, s2) ∧
      s2.m_scriptContent = (pre.map Prod.snd).flatten ++ last ++ [0, 0] ∧
      s2.m_scriptContent.length = ((pre.map Prod.snd).flatten ++ last).length + 2 :=
  ⟨_, Populate_reads s pre last rest hpre, rfl, by simp [Nat.add_assoc]⟩

/-- C7, witness: two chunks replace the previous four-byte buffer. -/
theorem Populate_content_witness :
    ∃ s2, PythonScript.Populate repopulatedScript
        ([(S_OK, [120, 0])] ++ (S_FALSE, [121, 0]) :: []) = some (S_OK, s2) ∧
      s2.m_scriptContent = ([(S_OK, [120, 0])].map Prod.snd).flatten ++ [121, 0] ++ [0, 0] ∧
      s2.m_scriptContent.length =
        (([(S_OK, [120, 0])].map Prod.snd).flatten ++ [121, 0]).length + 2 :=
  Populate_content repopulatedScript [(S_OK, [120, 0])] [121, 0] [] (by decide) (by decide)

/-! ## C8: the module name of a context -/

/-- C8, counterexample: two contexts constructed one after the other from
different source texts.  Both constructions succeed, both request the module
name `__foo__` from the interpreter, so the names requested are not distinct,
and both contexts run in the same module object. -/
theorem contexts_share_module_name :
    (∃ c1 c2,
      (PythonScriptState.RuntimeClassInitialize quietEnv sourceX []).1 = Except.ok c1 ∧
      (PythonScriptState.RuntimeClassInitialize quietEnv sourceY
        (PythonScriptState.RuntimeClassInitialize quietEnv sourceX []).2).1 = Except.ok c2 ∧
      c1.m_scriptContent ≠ c2.m_scriptContent ∧
      c1.m_pModule = c2.m_pModule) ∧
    requestedModuleNames
      (PythonScriptState.RuntimeClassInitialize quietEnv sourceY
        (PythonScriptState.RuntimeClassInitialize quietEnv sourceX []).2).2 =
      ["__foo__", "__foo__"] ∧
    ¬ (requestedModuleNames
      (PythonScriptState.RuntimeClassInitialize quietEnv sourceY
        (PythonScriptState.RuntimeClassInitialize quietEnv sourceX []).2).2).Nodup :=
  ⟨⟨_, _, rfl, rfl, by decide, rfl⟩, by decide, by decide⟩

/-- C8, amended: every execution context is constructed with the interpreter
module of the fixed name `__foo__`: for any two contexts constructed by
`PythonScriptState::RuntimeClassInitialize` (whatever the scripts, the source
texts and the moment), each construction requests exactly one module name from
the interpreter, and that name is `__foo__` in both; the names are equal, not
different. -/
theorem RuntimeClassInitialize_module_name (env : Env)
    (content1 : List Byte) (w1 : Trace) (c1 : PythonScriptState) (v1 : Trace)
    (content2 : List Byte) (w2 : Trace) (c2 : PythonScriptState) (v2 : Trace)
    (h1 : PythonScriptState.RuntimeClassInitialize env content1 w1 = (Except.ok c1, v1))
    (h2 : PythonScriptState.RuntimeClassInitialize env content2 w2 = (Except.ok c2, v2)) :
    requestedModuleNames (v1.drop w1.length) = ["__foo__"] ∧
    requestedModuleNames (v2.drop w2.length) = ["__foo__"] ∧
    requestedModuleNames (v1.drop w1.length) = requestedModuleNames (v2.drop w2.length) := by
  have e1 := (RuntimeClassInitialize_calls env content1 w1 c1 v1 h1).1
  have e2 := (RuntimeClassInitialize_calls env content2 w2 c2 v2 h2).1
  have r1 : requestedModuleNames (v1.drop w1.length) = ["__foo__"] := by
    rw [e1, List.drop_left]
    rfl
  have r2 : requestedModuleNames (v2.drop w2.length) = ["__foo__"] := by
    rw [e2, List.drop_left]
    rfl
  exact ⟨r1, r2, r1.trans r2.symm⟩

/-- C8, witness: the old and the new context of one reload, constructed from the
source texts "x" and "y". -/
theorem RuntimeClassInitialize_module_name_witness :
    requestedModuleNames
      ((PythonScriptState.RuntimeClassInitialize quietEnv sourceX []).2.drop
        ([] : Trace).length) = ["__foo__"] ∧
    requestedModuleNames
      ((PythonScriptState.RuntimeClassInitialize quietEnv sourceY
        (PythonScriptState.RuntimeClassInitialize quietEnv sourceX []).2).2.drop
        (PythonScriptState.RuntimeClassInitialize quietEnv sourceX []).2.length) =
      ["__foo__"] ∧
    requestedModuleNames
      ((PythonScriptState.RuntimeClassInitialize quietEnv sourceX []).2.drop
        ([] : Trace).length) =
    requestedModuleNames
      ((PythonScriptState.RuntimeClassInitialize quietEnv sourceY
        (PythonScriptState.RuntimeClassInitialize quietEnv sourceX []).2).2.drop
        (PythonScriptState.RuntimeClassInitialize quietEnv sourceX []).2.length) :=
  RuntimeClassInitialize_module_name quietEnv sourceX []
    { m_state := ScriptStateState.Created, m_scriptContent := [120, 0, 0], m_pModule := 1,
      m_pythonMainFunction := none, m_namespaceObject := none }
    (PythonScriptState.RuntimeClassInitialize quietEnv sourceX []).2
    sourceY (PythonScriptState.RuntimeClassInitialize quietEnv sourceX []).2
    { m_state := ScriptStateState.Created, m_scriptContent := [121, 0, 0], m_pModule := 1,
      m_pythonMainFunction := none, m_namespaceObject := none }
    (PythonScriptState.RuntimeClassInitialize quietEnv sourceY
      (PythonScriptState.RuntimeClassInitialize quietEnv sourceX []).2).2
    rfl rfl

/-! ## C9: a non-callable `initializeScript` -/

/-- C9: for every context whose namespace has an attribute `initializeScript`
that is not callable, `PythonScriptState::InitializeScript` returns the failure
`E_FAIL`; initialization is not skipped silently: on this path the only calls
are the three queries (has-attribute, get-attribute, callable-check), so no
initializer is called, nothing is marshaled or attached to the host namespace,
and the context is unchanged (no invoker cached, state neither advanced to
`UserInitialized` nor to `Active`).  When this happens to the new context of
`PythonScript::Execute`, `Execute` fails and the script is not advanced to
`Executed`. -/
theorem InitializeScript_noncallable_initializer :
    (∀ (env : Env) (script : PythonScript) (c : PythonScriptState) (w : Trace),
      env.PyObject_HasAttrString w (some c.m_pModule) "initializeScript" ≠ 0 →
      env.PyCallable_Check
        (w ++ [Call.PyObject_HasAttrString (some c.m_pModule) "initializeScript"] ++
          [Call.PyObject_GetAttrString (some c.m_pModule) "initializeScript"])
        (env.PyObject_GetAttrString
          (w ++ [Call.PyObject_HasAttrString (some c.m_pModule) "initializeScript"])
          (some c.m_pModule) "initializeScript") = 0 →
      (PythonScriptState.InitializeScript env script c w).1 = E_FAIL ∧
      FAILED (PythonScriptState.InitializeScript env script c w).1 = true ∧
      (PythonScriptState.InitializeScript env script c w).2.1 = c ∧
      (PythonScriptState.InitializeScript env script c w).2.2 =
        w ++ [Call.PyObject_HasAttrString (some c.m_pModule) "initializeScript",
              Call.PyObject_GetAttrString (some c.m_pModule) "initializeScript",
              Call.PyCallable_Check (env.PyObject_GetAttrString
                (w ++ [Call.PyObject_HasAttrString (some c.m_pModule) "initializeScript"])
                (some c.m_pModule) "initializeScript")]) ∧
    (∀ (env : Env) (s : PythonScript) (client : Option Client) (w : Trace)
      (hrU : HRESULT) (cur : Option PythonScriptState) (wU : Trace)
      (c0 : PythonScriptState) (wM : Trace)
      (hrE : HRESULT) (cE : PythonScriptState) (wE : Trace),
      (s.m_state = ScriptState.Populated ∨ s.m_state = ScriptState.Repopulated ∨
        s.m_state = ScriptState.Unlinked) →
      PythonScript.detachAndUninitialize env s w = (hrU, cur, wU) →
      SUCCEEDED hrU = true →
      PythonScriptState.RuntimeClassInitialize env s.m_scriptContent wU = (Except.ok c0, wM) →
      PythonScriptState.Execute env
        { PythonScript.beginExecute s client with m_spActiveState := some c0 } c0 wM =
        (hrE, cE, wE) →
      SUCCEEDED hrE = true →
      env.PyObject_HasAttrString wE (some cE.m_pModule) "initializeScript" ≠ 0 →
      env.PyCallable_Check
        (wE ++ [Call.PyObject_HasAttrString (some cE.m_pModule) "initializeScript"] ++
          [Call.PyObject_GetAttrString (some cE.m_pModule) "initializeScript"])
        (env.PyObject_GetAttrString
          (wE ++ [Call.PyObject_HasAttrString (some cE.m_pModule) "initializeScript"])
          (some cE.m_pModule) "initializeScript") = 0 →
      FAILED (PythonScript.Execute env s client w).1 = true ∧
      (PythonScript.Execute env s client w).2.1.m_state ≠ ScriptState.Executed) := by
  refine ⟨?_, ?_⟩
  · intro env script c w hhas hnc
    rw [InitializeScript_of_noncallable env script c w hhas hnc]
    exact ⟨rfl, FAILED_E_FAIL, rfl, by simp⟩
  · intro env s client w hrU cur wU c0 wM hrE cE wE hst hun hunok hmk hex hexok hhas hnc
    have hin := InitializeScript_of_noncallable env
      { PythonScript.beginExecute s client with m_spActiveState := some cE } cE wE hhas hnc
    have hie := InternalExecute_of_initialize_failed env (PythonScript.beginExecute s client)
      wU c0 wM hmk hrE cE wE hex hexok _ _ _ hin FAILED_E_FAIL
    have hunok2 : SUCCEEDED (PythonScript.detachAndUninitialize env s w).1 = true := by
      rw [hun]; exact hunok
    have hf : FAILED (PythonScript.InternalExecute env (PythonScript.beginExecute s client)
        (PythonScript.detachAndUninitialize env s w).2.2).1 = true := by
      rw [hun]
      simp only
      rw [hie]
      exact FAILED_E_FAIL
    have hfail := Execute_failed_of_InternalExecute_failed env s client w hst hunok2 hf
    refine ⟨hfail, ?_⟩
    have hs : ¬ (SUCCEEDED (PythonScript.Execute env s client w).1 = true) := by
      rw [SUCCEEDED_eq_not_FAILED, hfail]
      decide
    rw [Execute_m_state, if_neg hs]
    rcases hst with h | h | h <;> rw [h] <;> decide

/-- C9, witness: a populated script whose body leaves a non-callable
`initializeScript` (object 21) in its namespace; `InitializeScript` of the new
context fails with `E_FAIL` and `Execute` fails, the state staying `Populated`. -/
theorem InitializeScript_noncallable_initializer_witness :
    ((PythonScriptState.InitializeScript nonCallableEnv populatedScript
        { activeContext with m_state := ScriptStateState.Executed,
                             m_namespaceObject := none } []).1 = E_FAIL ∧
      FAILED (PythonScriptState.InitializeScript nonCallableEnv populatedScript
        { activeContext with m_state := ScriptStateState.Executed,
                             m_namespaceObject := none } []).1 = true ∧
      (PythonScriptState.InitializeScript nonCallableEnv populatedScript
        { activeContext with m_state := ScriptStateState.Executed,
                             m_namespaceObject := none } []).2.1 =
        { activeContext with m_state := ScriptStateState.Executed,
                             m_namespaceObject := none } ∧
      (PythonScriptState.InitializeScript nonCallableEnv populatedScript
        { activeContext with m_state := ScriptStateState.Executed,
                             m_namespaceObject := none } []).2.2 =
        [] ++ [Call.PyObject_HasAttrString (some 1) "initializeScript",
               Call.PyObject_GetAttrString (some 1) "initializeScript",
               Call.PyCallable_Check (some 21)]) ∧
    (FAILED (PythonScript.Execute nonCallableEnv populatedScript (some 9) []).1 = true ∧
      (PythonScript.Execute nonCallableEnv populatedScript (some 9) []).2.1.m_state ≠
        ScriptState.Executed) :=
  ⟨InitializeScript_noncallable_initializer.1 nonCallableEnv populatedScript
      { activeContext with m_state := ScriptStateState.Executed, m_namespaceObject := none }
      [] (by decide) (by decide),
   InitializeScript_noncallable_initializer.2 nonCallableEnv populatedScript (some 9) []
      S_OK none [] 
      { m_state := ScriptStateState.Created, m_scriptContent := [120, 0, 0], m_pModule := 1,
        m_pythonMainFunction := none, m_namespaceObject := none }
      [Call.WideCharToMultiByte sourceX 2 0, Call.WideCharToMultiByte sourceX 2 2,
       Call.PyImport_AddModule "__foo__"]
      S_OK
      { m_state := ScriptStateState.Executed, m_scriptContent := [120, 0, 0], m_pModule := 1,
        m_pythonMainFunction := none, m_namespaceObject := none }
      [Call.WideCharToMultiByte sourceX 2 0, Call.WideCharToMultiByte sourceX 2 2,
       Call.PyImport_AddModule "__foo__", Call.PyModule_GetDict 1, Call.DebugLog_Make,
       Call.DebugLog_AddToObject 1, Call.PyRun_String [120, 0, 0] (some 101)]
      (Or.inl rfl) rfl (by decide) rfl rfl (by decide) (by decide) (by decide)⟩

/-! ## C10: `IsInvocable` -/

/-- C10: `PythonScript::IsInvocable` fails, with `E_FAIL` and without writing a
value, if and only if the state is neither `Executed` nor `Repopulated`; in the
states `Executed` and `Repopulated`, with an active context `c`, it returns
`S_OK` and writes `c.HasMainFunction`, which is true exactly when the context
holds the invoker cached by `InitializeScript`.  The method returns no new
script: it assigns no member. -/
theorem IsInvocable_spec (s : PythonScript) :
    (PythonScript.IsInvocable s = some (E_FAIL, none) ↔
      ¬ (s.m_state = ScriptState.Executed ∨ s.m_state = ScriptState.Repopulated)) ∧
    ((∃ hr out, PythonScript.IsInvocable s = some (hr, out) ∧ FAILED hr = true) ↔
      ¬ (s.m_state = ScriptState.Executed ∨ s.m_state = ScriptState.Repopulated)) ∧
    (∀ c, (s.m_state = ScriptState.Executed ∨ s.m_state = ScriptState.Repopulated) →
      s.m_spActiveState = some c →
      PythonScript.IsInvocable s = some (S_OK, some c.HasMainFunction) ∧
      (c.HasMainFunction = true ↔ ∃ f, c.m_pythonMainFunction = some f)) := by
  have hne : S_OK ≠ E_FAIL := by decide
  have hok : FAILED S_OK = false := by decide
  refine ⟨?_, ?_, ?_⟩
  · unfold PythonScript.IsInvocable
    by_cases h : s.m_state = ScriptState.Executed ∨ s.m_state = ScriptState.Repopulated
    · rw [if_pos h]
      cases s.m_spActiveState <;> simp [h, hne]
    · rw [if_neg h]
      simp [h]
  · unfold PythonScript.IsInvocable
    by_cases h : s.m_state = ScriptState.Executed ∨ s.m_state = ScriptState.Repopulated
    · rw [if_pos h]
      cases s.m_spActiveState <;> simp [h, hok]
    · rw [if_neg h]
      simp [h, FAILED_E_FAIL]
  · intro c h hc
    refine ⟨?_, ?_⟩
    · unfold PythonScript.IsInvocable
      rw [if_pos h, hc]
    · unfold PythonScriptState.HasMainFunction
      cases c.m_pythonMainFunction <;> simp

/-- C10, witness: a repopulated script whose context cached an invoker. -/
theorem IsInvocable_spec_witness :
    PythonScript.IsInvocable
        { repopulatedScript with m_spActiveState := some invocableContext } =
      some (S_OK, some invocableContext.HasMainFunction) ∧
    (invocableContext.HasMainFunction = true ↔
      ∃ f, invocableContext.m_pythonMainFunction = some f) :=
  (IsInvocable_spec { repopulatedScript with m_spActiveState := some invocableContext }).2.2
    invocableContext (Or.inr rfl) rfl

/-! ## The message buffer of `InternalReportError` -/

theorem vsnwprintf_s_fits (len : Nat) (text : String) (h : ¬ (vsnwprintf_s len text = -1)) :
    text.length < len := by
  unfold vsnwprintf_s at h
  by_cases hl : text.length < len
  · exact hl
  · rw [if_neg hl] at h
    exact absurd rfl h

/-- The buffer-growing loop ends with a buffer that holds the whole text. -/
theorem growMessageBuffer_fits (fuel : Nat) (text : String) :
    ∀ len, 0 < len → text.length < fuel + len →
      text.length < growMessageBuffer fuel len text := by
  induction fuel with
  | zero =>
      intro len _ h
      simpa [growMessageBuffer] using h
  | succ fuel ih =>
      intro len hpos h
      unfold growMessageBuffer
      by_cases hv : vsnwprintf_s len text = -1
      · rw [if_pos hv]
        apply ih (len * 2)
        · omega
        · omega
      · rw [if_neg hv]
        exact vsnwprintf_s_fits len text hv

/-- The text reported by `InternalReportError` is the whole formatted text. -/
theorem formattedMessage_eq (text : String) : formattedMessage text = text := by
  unfold formattedMessage
  have h := growMessageBuffer_fits text.length text 1024 (by decide) (by omega)
  have hlen : text.data.length ≤ growMessageBuffer text.length 1024 text - 1 := by
    have : text.length = text.data.length := rfl
    omega
  rw [List.take_of_length_le hlen]

/-- The resource-based report when the template is found and converted and a
reporting client is attached: one `ReportError` call with the given class,
code, line and position and the formatted template. -/
theorem InternalReportErrorRsc_report (env : Env) (s : PythonScript) (ec : ErrorClass)
    (hrError : HRESULT) (line pos : Nat) (rscId : Nat) (va : List String) (w : Trace)
    (client : Client) (hclient : s.m_spReportingClient = some client)
    (h1 : HRESULT) (template : String)
    (hrsc : env.GetStringResource w rscId = (h1, template))
    (hrscok : FAILED h1 = false)
    (h2 : HRESULT) (wide : String)
    (hutf : env.GetUTF16 (w ++ [Call.GetStringResource rscId]) template = (h2, wide))
    (hutfok : FAILED h2 = false) :
    PythonScript.InternalReportErrorRsc env s ec hrError line pos rscId va w =
      (env.ReportError (w ++ [Call.GetStringResource rscId] ++ [Call.GetUTF16 template])
         client ec hrError (env.vsnwprintf wide va) line pos,
       w ++ [Call.GetStringResource rscId, Call.GetUTF16 template,
             Call.ReportError client ec hrError (env.vsnwprintf wide va) line pos]) := by
  unfold PythonScript.InternalReportErrorRsc PythonScript.InternalReportError
  simp only [hrsc, hrscok, hutf, hutfok, hclient, formattedMessage_eq]
  simp

/-! ## The uninitialize-failure path of `Execute` -/

/-- The result of `Execute` when the prior context fails to uninitialize. -/
theorem Execute_of_uninitialize_failed (env : Env) (s : PythonScript)
    (client : Option Client) (w : Trace) (C : PythonScriptState)
    (hst : s.m_state = ScriptState.Populated ∨ s.m_state = ScriptState.Repopulated ∨
      s.m_state = ScriptState.Unlinked)
    (hC : s.m_spActiveState = some C)
    (h : HRESULT) (cU : PythonScriptState) (wU : Trace)
    (hun : PythonScriptState.UninitializeScript env { s with m_spActiveState := none } C w =
      (h, cU, wU))
    (hfail : FAILED h = true) :
    PythonScript.Execute env s client w =
      (h,
       { s with
         m_state := if s.m_state = ScriptState.Unlinked then ScriptState.Populated
                    else s.m_state
         m_spActiveState := none
         m_spReportingClient := none },
       wU) := by
  have hdet : PythonScript.detachAndUninitialize env s w = (h, some cU, wU) := by
    unfold PythonScript.detachAndUninitialize
    rw [hC]
    simp only [hun]
  have hns : ¬ (SUCCEEDED h = true) := by
    rw [SUCCEEDED_eq_not_FAILED, hfail]
    decide
  unfold PythonScript.Execute PythonScript.executeGuarded
  simp only [if_pos hst, hdet, if_neg hns]
  simp [PythonScript.beginExecute]

/-! ## Calls that do not touch the host namespace -/

/-- `ReportExceptionOrError` stores the input code in the converted result on
every path. -/
theorem ReportExceptionOrError_converted (env : Env) (s : PythonScript) (hrIn : HRESULT)
    (ec : ErrorClass) (rscId : Nat) (va : List String) (w : Trace) :
    (PythonScript.ReportExceptionOrError env s hrIn ec rscId va w).2.1 = hrIn := by
  unfold PythonScript.ReportExceptionOrError
  simp only
  repeat' split
  all_goals rfl

theorem ObjectErrorConvert_failed (env : Env) (w : Trace) :
    FAILED (ObjectErrorConvert env w) = true := by
  unfold ObjectErrorConvert
  by_cases h : FAILED (env.ConvertPythonError w) = true
  · rw [if_pos h]; exact h
  · rw [if_neg h]; exact FAILED_E_FAIL

theorem InternalReportError_notLink (env : Env) (s : PythonScript) (ec : ErrorClass)
    (hrError : HRESULT) (line pos : Nat) (msg : String) (va : List String) (w : Trace) :
    TraceExtends NotLink w
      (PythonScript.InternalReportError env s ec hrError line pos msg va w).2 := by
  unfold PythonScript.InternalReportError
  simp only
  repeat' split
  all_goals
    repeat (first
      | exact TraceExtends.refl _ _
      | refine TraceExtends.snoc ?_ rfl)

theorem InternalReportErrorRsc_notLink (env : Env) (s : PythonScript) (ec : ErrorClass)
    (hrError : HRESULT) (line pos : Nat) (rscId : Nat) (va : List String) (w : Trace) :
    TraceExtends NotLink w
      (PythonScript.InternalReportErrorRsc env s ec hrError line pos rscId va w).2 := by
  unfold PythonScript.InternalReportErrorRsc
  simp only
  repeat' split
  all_goals
    repeat (first
      | exact TraceExtends.refl _ _
      | refine TraceExtends.snoc ?_ rfl
      | refine TraceExtends.trans ?_ (InternalReportError_notLink _ _ _ _ _ _ _ _ _))

theorem fetchULongAttr_notLink (env : Env) (value : Option PyObj) (name : String) (cur : Nat)
    (w : Trace) : TraceExtends NotLink w (fetchULongAttr env value name cur w).2.2 := by
  unfold fetchULongAttr
  simp only
  repeat' split
  all_goals
    repeat (first
      | exact TraceExtends.refl _ _
      | refine TraceExtends.snoc ?_ rfl)

theorem fetchMsgAttr_notLink (env : Env) (value : Option PyObj) (w : Trace) :
    TraceExtends NotLink w (fetchMsgAttr env value w).2.2 := by
  unfold fetchMsgAttr
  simp only
  repeat' split
  all_goals
    repeat (first
      | exact TraceExtends.refl _ _
      | refine TraceExtends.snoc ?_ rfl)

theorem inspectException_notLink (env : Env) (w : Trace) :
    TraceExtends NotLink w (inspectException env w).2.2.2.2 := by
  unfold inspectException
  simp only
  repeat' split
  all_goals
    repeat (first
      | exact TraceExtends.refl _ _
      | refine TraceExtends.snoc ?_ rfl
      | refine TraceExtends.trans ?_ (fetchMsgAttr_notLink _ _ _)
      | refine TraceExtends.trans ?_ (fetchULongAttr_notLink _ _ _ _ _))

theorem ReportExceptionOrError_notLink (env : Env) (s : PythonScript) (hrIn : HRESULT)
    (ec : ErrorClass) (rscId : Nat) (va : List String) (w : Trace) :
    TraceExtends NotLink w
      (PythonScript.ReportExceptionOrError env s hrIn ec rscId va w).2.2 := by
  unfold PythonScript.ReportExceptionOrError
  simp only
  repeat' split
  all_goals
    repeat (first
      | exact TraceExtends.refl _ _
      | refine TraceExtends.snoc ?_ rfl
      | refine TraceExtends.trans ?_ (InternalReportError_notLink _ _ _ _ _ _ _ _ _)
      | refine TraceExtends.trans ?_ (InternalReportErrorRsc_notLink _ _ _ _ _ _ _ _ _)
      | refine TraceExtends.trans ?_ (inspectException_notLink _ _))

theorem callInitializer_notLink (env : Env) (script : PythonScript) (c : PythonScriptState)
    (w : Trace) :
    TraceExtends NotLink w (PythonScriptState.callInitializer env script c w).2.2 := by
  unfold PythonScriptState.callInitializer
  simp only
  repeat' split
  all_goals
    repeat (first
      | exact TraceExtends.refl _ _
      | refine TraceExtends.snoc ?_ rfl
      | refine TraceExtends.trans ?_ (ReportExceptionOrError_notLink _ _ _ _ _ _ _))

theorem discoverInvoker_notLink (env : Env) (c : PythonScriptState) (w : Trace) :
    TraceExtends NotLink w (PythonScriptState.discoverInvoker env c w).2.2 := by
  unfold PythonScriptState.discoverInvoker
  simp only
  repeat' split
  all_goals
    repeat (first
      | exact TraceExtends.refl _ _
      | refine TraceExtends.snoc ?_ rfl)

theorem RuntimeClassInitialize_notLink (env : Env) (content : List Byte) (w : Trace) :
    TraceExtends NotLink w (PythonScriptState.RuntimeClassInitialize env content w).2 := by
  unfold PythonScriptState.RuntimeClassInitialize
  simp only
  repeat' split
  all_goals
    repeat (first
      | exact TraceExtends.refl _ _
      | refine TraceExtends.snoc ?_ rfl)

theorem PythonScriptState_Execute_notLink (env : Env) (script : PythonScript)
    (c : PythonScriptState) (w : Trace) :
    TraceExtends NotLink w (PythonScriptState.Execute env script c w).2.2 := by
  unfold PythonScriptState.Execute
  simp only
  repeat' split
  all_goals
    repeat (first
      | exact TraceExtends.refl _ _
      | refine TraceExtends.snoc ?_ rfl
      | refine TraceExtends.trans ?_ (ReportExceptionOrError_notLink _ _ _ _ _ _ _))

/-- The early return codes of the first block of `InitializeScript` are
failures, and the block neither activates nor links the context. -/
theorem callInitializer_early (env : Env) (script : PythonScript) (c : PythonScriptState)
    (w : Trace) :
    (∀ hr, (PythonScriptState.callInitializer env script c w).1 = some hr →
      FAILED hr = true) ∧
    ((PythonScriptState.callInitializer env script c w).2.1.m_state = c.m_state ∨
      (PythonScriptState.callInitializer env script c w).2.1.m_state =
        ScriptStateState.UserInitialized) ∧
    (PythonScriptState.callInitializer env script c w).2.1.m_namespaceObject =
      c.m_namespaceObject := by
  unfold PythonScriptState.callInitializer
  simp only
  repeat' split
  all_goals
    refine ⟨?_, ?_, rfl⟩
    · intro hr h
      cases h <;> first
        | exact FAILED_E_FAIL
        | (rw [ReportExceptionOrError_converted]; exact FAILED_E_FAIL)
    · first
        | exact Or.inl rfl
        | exact Or.inr rfl

/-- The early return codes of the second block of `InitializeScript` are
failures, and the block neither changes the state nor links the context. -/
theorem discoverInvoker_early (env : Env) (c : PythonScriptState) (w : Trace) :
    (∀ hr, (PythonScriptState.discoverInvoker env c w).1 = some hr → FAILED hr = true) ∧
    (PythonScriptState.discoverInvoker env c w).2.1.m_state = c.m_state ∧
    (PythonScriptState.discoverInvoker env c w).2.1.m_namespaceObject =
      c.m_namespaceObject := by
  unfold PythonScriptState.discoverInvoker
  simp only
  repeat' split
  all_goals
    refine ⟨?_, rfl, rfl⟩
    intro hr h
    cases h <;> first
      | exact FAILED_E_FAIL
      | exact ObjectErrorConvert_failed _ _

/-- The steps of `InitializeScript`, in terms of the outcomes of its two first
blocks and of the marshaler. -/
theorem InitializeScript_steps (env : Env) (script : PythonScript) (c : PythonScriptState)
    (w : Trace)
    (oa : Option HRESULT) (ca : PythonScriptState) (wa : Trace)
    (ha : PythonScriptState.callInitializer env script c w = (oa, ca, wa))
    (ob : Option HRESULT) (cb : PythonScriptState) (wb : Trace)
    (hb : PythonScriptState.discoverInvoker env ca wa = (ob, cb, wb))
    (hm : HRESULT) (obj : HostObj)
    (hmar : env.MarshalFromPython wb cb.m_pModule = (hm, obj)) :
    PythonScriptState.InitializeScript env script c w =
      match oa with
      | some hr => (hr, ca, wa)
      | none =>
          match ob with
          | some hr => (hr, cb, wb)
          | none =>
              if FAILED hm = true then (hm, cb, wb ++ [Call.MarshalFromPython cb.m_pModule])
              else if FAILED (env.AddParentModel (wb ++ [Call.MarshalFromPython cb.m_pModule])
                  script.m_hostNamespace obj) = true then
                (env.AddParentModel (wb ++ [Call.MarshalFromPython cb.m_pModule])
                   script.m_hostNamespace obj, cb,
                 wb ++ [Call.MarshalFromPython cb.m_pModule] ++
                   [Call.AddParentModel script.m_hostNamespace obj])
              else
                (env.AddParentModel (wb ++ [Call.MarshalFromPython cb.m_pModule])
                   script.m_hostNamespace obj,
                 { cb with m_namespaceObject := some obj,
                           m_state := ScriptStateState.Active },
                 wb ++ [Call.MarshalFromPython cb.m_pModule] ++
                   [Call.AddParentModel script.m_hostNamespace obj]) := by
  unfold PythonScriptState.InitializeScript
  simp only [ha]
  cases oa with
  | some hr => rfl
  | none =>
      simp only [hb]
      cases ob with
      | some hr => rfl
      | none =>
          simp only
          unfold PythonScriptState.linkNamespace
          simp only [hmar]

theorem countP_isAddParentModel_of_notLink (evs : Trace) (h : ∀ e ∈ evs, NotLink e) :
    evs.countP Call.isAddParentModel = 0 := by
  rw [List.countP_eq_zero]
  intro e he
  have := h e he
  unfold NotLink at this
  simp [this]

/-- A new context whose body execution fails is never linked: `InternalExecute`
makes no `AddParentModel` call, fails, and leaves no active context. -/
theorem InternalExecute_of_body_failed (env : Env) (s : PythonScript) (w : Trace)
    (c0 : PythonScriptState) (wM : Trace)
    (hmk : PythonScriptState.RuntimeClassInitialize env s.m_scriptContent w = (Except.ok c0, wM))
    (hbody : FAILED (PythonScriptState.Execute env { s with m_spActiveState := some c0 }
      c0 wM).1 = true) :
    PythonScript.InternalExecute env s w =
      ((PythonScriptState.Execute env { s with m_spActiveState := some c0 } c0 wM).1,
       { s with m_spActiveState := none },
       (PythonScriptState.Execute env { s with m_spActiveState := some c0 } c0 wM).2.2) ∧
    TraceExtends NotLink w (PythonScript.InternalExecute env s w).2.2 := by
  have heq : PythonScript.InternalExecute env s w =
      ((PythonScriptState.Execute env { s with m_spActiveState := some c0 } c0 wM).1,
       { s with m_spActiveState := none },
       (PythonScriptState.Execute env { s with m_spActiveState := some c0 } c0 wM).2.2) := by
    unfold PythonScript.InternalExecute
    simp only [hmk, hbody, if_true]
  refine ⟨heq, ?_⟩
  rw [heq]
  have h1 := RuntimeClassInitialize_notLink env s.m_scriptContent w
  rw [hmk] at h1
  exact TraceExtends.trans h1 (PythonScriptState_Execute_notLink env _ c0 wM)

/-! ## C11: the fallback report of `ReportExceptionOrError` -/

/-- C11: for every input code `hrIn`, `PythonScript::ReportExceptionOrError`
stores `hrIn` in the converted result on every path, so for a failing `hrIn`
the converted result is a failure.  When no interpreter exception is pending,
or one is pending but its inspection ends without a message (and without an
early return), the resource template `rscId` is used: with the template found
and converted and a reporting client attached, exactly one report is handed to
the client, carrying the given error class, the code `hrIn`, the text formatted
from the template and the arguments, line 0 and column 0. -/
theorem ReportExceptionOrError_fallback :
    (∀ (env : Env) (s : PythonScript) (hrIn : HRESULT) (ec : ErrorClass) (rscId : Nat)
      (va : List String) (w : Trace),
      (PythonScript.ReportExceptionOrError env s hrIn ec rscId va w).2.1 = hrIn ∧
      (FAILED hrIn = true →
        FAILED (PythonScript.ReportExceptionOrError env s hrIn ec rscId va w).2.1 = true)) ∧
    (∀ (env : Env) (s : PythonScript) (hrIn : HRESULT) (ec : ErrorClass) (rscId : Nat)
      (va : List String) (w wq : Trace) (client : Client)
      (h1 : HRESULT) (template : String) (h2 : HRESULT) (wide : String),
      FAILED hrIn = true →
      ((env.PyErr_Occurred w = false ∧ wq = w ++ [Call.PyErr_Occurred]) ∨
        (env.PyErr_Occurred w = true ∧
          ∃ line pos, inspectException env (w ++ [Call.PyErr_Occurred]) =
            (none, line, pos, none, wq))) →
      s.m_spReportingClient = some client →
      env.GetStringResource wq rscId = (h1, template) →
      FAILED h1 = false →
      env.GetUTF16 (wq ++ [Call.GetStringResource rscId]) template = (h2, wide) →
      FAILED h2 = false →
      (PythonScript.ReportExceptionOrError env s hrIn ec rscId va w).2.2 =
        wq ++ [Call.GetStringResource rscId, Call.GetUTF16 template,
               Call.ReportError client ec hrIn (env.vsnwprintf wide va) 0 0] ∧
      (PythonScript.ReportExceptionOrError env s hrIn ec rscId va w).1 =
        env.ReportError (wq ++ [Call.GetStringResource rscId] ++ [Call.GetUTF16 template])
          client ec hrIn (env.vsnwprintf wide va) 0 0) := by
  refine ⟨?_, ?_⟩
  · intro env s hrIn ec rscId va w
    have hconv := ReportExceptionOrError_converted env s hrIn ec rscId va w
    exact ⟨hconv, fun hf => by rw [hconv]; exact hf⟩
  · intro env s hrIn ec rscId va w wq client h1 template h2 wide _ hcase hclient hrsc hrscok
      hutf hutfok
    have hrep := InternalReportErrorRsc_report env s ec hrIn 0 0 rscId va wq client hclient
      h1 template hrsc hrscok h2 wide hutf hutfok
    rcases hcase with ⟨hno, hwq⟩ | ⟨hyes, line, pos, hins⟩
    · subst hwq
      unfold PythonScript.ReportExceptionOrError
      simp only [hno, hrep]
      simp
    · unfold PythonScript.ReportExceptionOrError
      simp only [hyes, hins, hrep]
      simp

/-- C11, witness: no exception is pending; the report carries the template
text "failure", line 0 and column 0. -/
theorem ReportExceptionOrError_fallback_witness :
    (PythonScript.ReportExceptionOrError quietEnv
        { populatedScript with m_spReportingClient := some 9 } E_FAIL
        ErrorClass.ErrorClassError 1 [] []).2.2 =
      [Call.PyErr_Occurred] ++ [Call.GetStringResource 1, Call.GetUTF16 "failure",
        Call.ReportError 9 ErrorClass.ErrorClassError E_FAIL
          (quietEnv.vsnwprintf "failure" []) 0 0] ∧
    (PythonScript.ReportExceptionOrError quietEnv
        { populatedScript with m_spReportingClient := some 9 } E_FAIL
        ErrorClass.ErrorClassError 1 [] []).1 =
      quietEnv.ReportError
        ([Call.PyErr_Occurred] ++ [Call.GetStringResource 1] ++ [Call.GetUTF16 "failure"])
        9 ErrorClass.ErrorClassError E_FAIL (quietEnv.vsnwprintf "failure" []) 0 0 :=
  ReportExceptionOrError_fallback.2 quietEnv
    { populatedScript with m_spReportingClient := some 9 } E_FAIL
    ErrorClass.ErrorClassError 1 [] [] [Call.PyErr_Occurred] 9 S_OK "failure" S_OK "failure"
    (by decide) (Or.inl ⟨rfl, rfl⟩) rfl rfl (by decide) rfl (by decide)

/-! ## C12: the host namespace link is the last step -/

/-- C12: in `PythonScriptState::InitializeScript` the host namespace link
(`AddParentModel`) is the last fallible step.  In every call it is made at most
once; when it is made, the initializer block returned no error (the optional
initializer was absent or called successfully), the invoker block returned no
error (the optional invoker was absent or found callable), the namespace was
marshaled successfully, and the link is the last call of `InitializeScript`.
Whenever one of those earlier steps fails, `InitializeScript` returns a failure
without calling `AddParentModel`, without linking a namespace object and
without setting the state to `Active`.  And in `PythonScript::InternalExecute` a
new context whose body execution failed is never linked: no `AddParentModel`
call is made and the context is released. -/
theorem InitializeScript_link_last :
    (∀ (env : Env) (script : PythonScript) (c : PythonScriptState) (w : Trace)
      (oa : Option HRESULT) (ca : PythonScriptState) (wa : Trace)
      (ob : Option HRESULT) (cb : PythonScriptState) (wb : Trace)
      (hm : HRESULT) (obj : HostObj),
      PythonScriptState.callInitializer env script c w = (oa, ca, wa) →
      PythonScriptState.discoverInvoker env ca wa = (ob, cb, wb) →
      env.MarshalFromPython wb cb.m_pModule = (hm, obj) →
      ∃ evs, (PythonScriptState.InitializeScript env script c w).2.2 = w ++ evs ∧
        evs.countP Call.isAddParentModel ≤ 1 ∧
        (∀ e ∈ evs, e.isAddParentModel = true →
          oa = none ∧ ob = none ∧ FAILED hm = false ∧
          e = Call.AddParentModel script.m_hostNamespace obj ∧
          evs.getLast? = some e) ∧
        ((oa ≠ none ∨ ob ≠ none ∨ FAILED hm = true) →
          FAILED (PythonScriptState.InitializeScript env script c w).1 = true ∧
          evs.countP Call.isAddParentModel = 0 ∧
          (PythonScriptState.InitializeScript env script c w).2.1.m_namespaceObject =
            c.m_namespaceObject ∧
          (c.m_state ≠ ScriptStateState.Active →
            (PythonScriptState.InitializeScript env script c w).2.1.m_state ≠
              ScriptStateState.Active))) ∧
    (∀ (env : Env) (s : PythonScript) (w : Trace) (c0 : PythonScriptState) (wM : Trace),
      PythonScriptState.RuntimeClassInitialize env s.m_scriptContent w = (Except.ok c0, wM) →
      FAILED (PythonScriptState.Execute env { s with m_spActiveState := some c0 }
        c0 wM).1 = true →
      FAILED (PythonScript.InternalExecute env s w).1 = true ∧
      (PythonScript.InternalExecute env s w).2.1.m_spActiveState = none ∧
      ∃ evs, (PythonScript.InternalExecute env s w).2.2 = w ++ evs ∧
        evs.countP Call.isAddParentModel = 0) := by
  refine ⟨?_, ?_⟩
  · intro env script c w oa ca wa ob cb wb hm obj ha hb hmar
    have hsteps := InitializeScript_steps env script c w oa ca wa ha ob cb wb hb hm obj hmar
    have hta := callInitializer_notLink env script c w
    rw [ha] at hta
    obtain ⟨ea, hwa, hea⟩ := hta
    have htb := discoverInvoker_notLink env ca wa
    rw [hb] at htb
    obtain ⟨eb, hwb, heb⟩ := htb
    have hae := callInitializer_early env script c w
    rw [ha] at hae
    obtain ⟨hafail, hastate, hans⟩ := hae
    have hbe := discoverInvoker_early env ca wa
    rw [hb] at hbe
    obtain ⟨hbfail, hbstate, hbns⟩ := hbe
    simp only at hwa hwb hafail hastate hans hbfail hbstate hbns
    have hca0 := countP_isAddParentModel_of_notLink ea hea
    have hcb0 := countP_isAddParentModel_of_notLink eb heb
    have hab : ∀ e ∈ ea ++ eb, NotLink e := by
      intro e he
      rcases List.mem_append.mp he with h | h
      · exact hea e h
      · exact heb e h
    have hcab0 := countP_isAddParentModel_of_notLink (ea ++ eb) hab
    have hcbstate : c.m_state ≠ ScriptStateState.Active →
        cb.m_state ≠ ScriptStateState.Active := by
      intro hne
      rw [hbstate]
      rcases hastate with h | h
      · rw [h]; exact hne
      · rw [h]; decide
    rw [hsteps]
    cases oa with
    | some hr =>
        refine ⟨ea, hwa, by omega, ?_, ?_⟩
        · intro e he hlink
          have := hea e he
          unfold NotLink at this
          rw [this] at hlink
          exact absurd hlink (by decide)
        · intro _
          refine ⟨hafail hr rfl, hca0, hans, ?_⟩
          intro hne
          rcases hastate with h | h
          · simp only; rw [h]; exact hne
          · simp only; rw [h]; decide
    | none =>
        cases ob with
        | some hr =>
            refine ⟨ea ++ eb, by simp only [hwb, hwa, List.append_assoc], by omega, ?_, ?_⟩
            · intro e he hlink
              have := hab e he
              unfold NotLink at this
              rw [this] at hlink
              exact absurd hlink (by decide)
            · intro _
              exact ⟨hbfail hr rfl, hcab0, hbns.trans hans, hcbstate⟩
        | none =>
            by_cases hmf : FAILED hm = true
            · dsimp only
              rw [if_pos hmf]
              refine ⟨ea ++ eb ++ [Call.MarshalFromPython cb.m_pModule],
                by simp only [hwb, hwa, List.append_assoc], ?_, ?_, ?_⟩
              · rw [List.countP_append, hcab0]
                simp [Call.isAddParentModel]
              · intro e he hlink
                rcases List.mem_append.mp he with h | h
                · have := hab e h
                  unfold NotLink at this
                  rw [this] at hlink
                  exact absurd hlink (by decide)
                · rw [List.mem_singleton.mp h] at hlink
                  simp [Call.isAddParentModel] at hlink
              · intro _
                refine ⟨hmf, ?_, hbns.trans hans, hcbstate⟩
                rw [List.countP_append, hcab0]
                rfl
            · have hmf2 : FAILED hm = false := by simpa using hmf
              have hnot : ¬ ((none : Option HRESULT) ≠ none ∨ (none : Option HRESULT) ≠ none ∨
                  FAILED hm = true) := by
                simp [hmf2]
              have hlast : ∀ e ∈ ea ++ eb ++ [Call.MarshalFromPython cb.m_pModule] ++
                  [Call.AddParentModel script.m_hostNamespace obj],
                  e.isAddParentModel = true →
                  (none : Option HRESULT) = none ∧ (none : Option HRESULT) = none ∧
                  FAILED hm = false ∧
                  e = Call.AddParentModel script.m_hostNamespace obj ∧
                  (ea ++ eb ++ [Call.MarshalFromPython cb.m_pModule] ++
                    [Call.AddParentModel script.m_hostNamespace obj]).getLast? = some e := by
                intro e he hlink
                rcases List.mem_append.mp he with h | h
                · rcases List.mem_append.mp h with h2 | h2
                  · have := hab e h2
                    unfold NotLink at this
                    rw [this] at hlink
                    exact absurd hlink (by decide)
                  · rw [List.mem_singleton.mp h2] at hlink
                    simp [Call.isAddParentModel] at hlink
                · have he2 := List.mem_singleton.mp h
                  refine ⟨rfl, rfl, hmf2, he2, ?_⟩
                  rw [he2, List.getLast?_append]
                  rfl
              have hcount : (ea ++ eb ++ [Call.MarshalFromPython cb.m_pModule] ++
                  [Call.AddParentModel script.m_hostNamespace obj]).countP
                    Call.isAddParentModel ≤ 1 := by
                rw [List.countP_append, List.countP_append, hcab0]
                simp [Call.isAddParentModel]
              dsimp only
              rw [if_neg hmf]
              by_cases haf : FAILED (env.AddParentModel
                  (wb ++ [Call.MarshalFromPython cb.m_pModule]) script.m_hostNamespace obj) = true
              · rw [if_pos haf]
                exact ⟨_, by simp only [hwb, hwa, List.append_assoc], hcount, hlast,
                  fun h => absurd h hnot⟩
              · rw [if_neg haf]
                exact ⟨_, by simp only [hwb, hwa, List.append_assoc], hcount, hlast,
                  fun h => absurd h hnot⟩
  · intro env s w c0 wM hmk hbody
    obtain ⟨heq, evs, hevs, hall⟩ := InternalExecute_of_body_failed env s w c0 wM hmk hbody
    refine ⟨?_, ?_, evs, hevs, countP_isAddParentModel_of_notLink evs hall⟩
    · rw [heq]; exact hbody
    · rw [heq]

/-- C12, witness: the initialization of a new context in the quiet environment
(no initializer, no invoker, marshal and link succeed), and the construction of
a context whose body raises. -/
theorem InitializeScript_link_last_witness :
    (∃ evs, (PythonScriptState.InitializeScript quietEnv populatedScript
          executedContext []).2.2 = [] ++ evs ∧
        evs.countP Call.isAddParentModel ≤ 1 ∧
        (∀ e ∈ evs, e.isAddParentModel = true →
          (none : Option HRESULT) = none ∧ (none : Option HRESULT) = none ∧
          FAILED S_OK = false ∧
          e = Call.AddParentModel populatedScript.m_hostNamespace 50 ∧
          evs.getLast? = some e) ∧
        (((none : Option HRESULT) ≠ none ∨ (none : Option HRESULT) ≠ none ∨
            FAILED S_OK = true) →
          FAILED (PythonScriptState.InitializeScript quietEnv populatedScript
            executedContext []).1 = true ∧
          evs.countP Call.isAddParentModel = 0 ∧
          (PythonScriptState.InitializeScript quietEnv populatedScript
            executedContext []).2.1.m_namespaceObject = executedContext.m_namespaceObject ∧
          (executedContext.m_state ≠ ScriptStateState.Active →
            (PythonScriptState.InitializeScript quietEnv populatedScript
              executedContext []).2.1.m_state ≠ ScriptStateState.Active))) ∧
    (FAILED (PythonScript.InternalExecute raisingEnv populatedScript []).1 = true ∧
      (PythonScript.InternalExecute raisingEnv populatedScript []).2.1.m_spActiveState = none ∧
      ∃ evs, (PythonScript.InternalExecute raisingEnv populatedScript []).2.2 = [] ++ evs ∧
        evs.countP Call.isAddParentModel = 0) :=
  ⟨InitializeScript_link_last.1 quietEnv populatedScript executedContext []
      none executedContext [Call.PyObject_HasAttrString (some 1) "initializeScript"]
      none executedContext
      [Call.PyObject_HasAttrString (some 1) "initializeScript",
       Call.PyObject_HasAttrString (some 1) "invokeScript"]
      S_OK 50 rfl rfl rfl,
   InitializeScript_link_last.2 raisingEnv populatedScript [] createdContext
      [Call.WideCharToMultiByte sourceX 2 0, Call.WideCharToMultiByte sourceX 2 2,
       Call.PyImport_AddModule "__foo__"] rfl (by decide)⟩

/-! ## C13: a failing `UninitializeScript` -/

/-- C13: for every script in state `Populated`, `Repopulated` or `Unlinked` that
holds a prior context whose `UninitializeScript` returns a failure `h`,
`PythonScript::Execute` returns exactly `h`; the trace after the call is the
trace `UninitializeScript` left, so no new execution context is constructed,
executed or initialized; the state is not advanced to `Executed` (it is the
state before the call, with `Unlinked` turned into `Populated`), and the
reporting client is cleared when the call returns. -/
theorem Execute_uninitialize_failure (env : Env) (s : PythonScript)
    (client : Option Client) (w : Trace) (C : PythonScriptState)
    (hst : s.m_state = ScriptState.Populated ∨ s.m_state = ScriptState.Repopulated ∨
      s.m_state = ScriptState.Unlinked)
    (hC : s.m_spActiveState = some C)
    (h : HRESULT) (cU : PythonScriptState) (wU : Trace)
    (hun : PythonScriptState.UninitializeScript env { s with m_spActiveState := none } C w =
      (h, cU, wU))
    (hfail : FAILED h = true) :
    (PythonScript.Execute env s client w).1 = h ∧
    (PythonScript.Execute env s client w).2.2 = wU ∧
    (PythonScript.Execute env s client w).2.1.m_state ≠ ScriptState.Executed ∧
    (PythonScript.Execute env s client w).2.1.m_state =
      (if s.m_state = ScriptState.Unlinked then ScriptState.Populated else s.m_state) ∧
    (PythonScript.Execute env s client w).2.1.m_spReportingClient = none := by
  rw [Execute_of_uninitialize_failed env s client w C hst hC h cU wU hun hfail]
  refine ⟨rfl, rfl, ?_, rfl, rfl⟩
  simp only
  rcases hst with h1 | h1 | h1 <;> rw [h1] <;> decide

/-- C13, witness: the host refuses to detach the model of the active context of
a repopulated script. -/
theorem Execute_uninitialize_failure_witness :
    (PythonScript.Execute detachFailsEnv repopulatedScript (some 9) []).1 = E_FAIL ∧
    (PythonScript.Execute detachFailsEnv repopulatedScript (some 9) []).2.2 =
      [Call.RemoveParentModel 40 50] ∧
    (PythonScript.Execute detachFailsEnv repopulatedScript (some 9) []).2.1.m_state ≠
      ScriptState.Executed ∧
    (PythonScript.Execute detachFailsEnv repopulatedScript (some 9) []).2.1.m_state =
      (if repopulatedScript.m_state = ScriptState.Unlinked then ScriptState.Populated
       else repopulatedScript.m_state) ∧
    (PythonScript.Execute detachFailsEnv repopulatedScript (some 9) []).2.1.m_spReportingClient =
      none :=
  Execute_uninitialize_failure detachFailsEnv repopulatedScript (some 9) [] activeContext
    (Or.inr (Or.inl rfl)) rfl E_FAIL activeContext [Call.RemoveParentModel 40 50] rfl
    (by decide)

/-! ## C14: the reachable states and the active context -/

/-- C14, failing input: a fresh script is populated, executed (with success),
populated again and executed again while the host refuses to detach the model
of the active context.  After the first two calls the script is `Executed` and
holds its context; after the four calls the state is `Repopulated`, the script
holds no active context (the context moved out by `Execute` was dropped), and
`IsInvocable` dereferences the null `m_spActiveState`. -/
theorem Repopulated_without_context_reachable :
    (runCalls detachFailsEnv
        [ScriptCall.Populate streamX, ScriptCall.Execute (some 9)]
        (freshScript, [])).map
      (fun r => (r.1.m_state, r.1.m_spActiveState)) =
      some (ScriptState.Executed, some activeContext) ∧
    (runCalls detachFailsEnv
        [ScriptCall.Populate streamX, ScriptCall.Execute (some 9),
         ScriptCall.Populate streamY, ScriptCall.Execute (some 9)]
        (freshScript, [])).map
      (fun r => (r.1.m_state, r.1.m_spActiveState, PythonScript.IsInvocable r.1)) =
      some (ScriptState.Repopulated, none, none) ∧
    (PythonScript.Execute detachFailsEnv
        { executedScript with m_state := ScriptState.Repopulated, m_scriptContent := sourceY }
        (some 9) []).1 = E_FAIL := by
  decide

/-! ## C15: repeated `Populate` after an execution -/

/-- C15, failing input: an executed script, holding its active context, is
populated twice with no `Execute` in between.  The first `Populate` sets the
state to `Repopulated`; the second one finds the state `Repopulated`, which is
not `Executed`, and sets it to `Populated`, although the executed context is
still active; `IsInvocable` then fails with `E_FAIL`.  Two `Populate` calls do
not yield the state of one. -/
theorem Populate_twice_after_Executed :
    executedScript.m_state = ScriptState.Executed ∧
    (runCalls quietEnv [ScriptCall.Populate streamY] (executedScript, [])).map
      (fun r => (r.1.m_state, r.1.m_spActiveState, PythonScript.IsInvocable r.1)) =
      some (ScriptState.Repopulated, some activeContext, some (S_OK, some false)) ∧
    (runCalls quietEnv [ScriptCall.Populate streamY, ScriptCall.Populate streamY]
        (executedScript, [])).map
      (fun r => (r.1.m_state, r.1.m_spActiveState, PythonScript.IsInvocable r.1)) =
      some (ScriptState.Populated, some activeContext, some (E_FAIL, none)) :=
  ⟨rfl, rfl, rfl⟩

end PyProvider
